import Mathlib

/-!
Shallow embedding of the VPS-plan aggregation layer of the `vpscompare`
repository: the provider adapters (`fetchDigitalOceanPlans`,
`fetchHetznerPlans`, `fetchLinodePlans` from `src/content.config.ts`,
`fetchVultrPlans` from `src/loaders/vultr.ts`, `fetchUpCloudPlans` from the
UpCloud loader, `fetchScalewayPlans` from `src/loaders/scaleway.ts`), the
canonical plan schema `vpsSchema`, and the collection loader that fans out
to all adapters with `Promise.all` and concatenates their results.

Conventions of the embedding:
- JS numbers are modelled as rationals (`ℚ`); every numeric value the code
  manipulates here is exact decimal arithmetic.
- `console.warn` / `console.error` / `console.log` calls are modelled as an
  output list of `LogEntry` values.
- An HTTP response is a record of its `ok` flag, status, status text and the
  result of `.json()` (an `Except`, since body decoding can fail).
- A thrown JS exception inside an adapter's `try` block is an
  `Except.error`; the adapter's top-level `catch` turns it into
  `([], one error log)`.
- `parseFloat` on the plain decimal price strings the providers return is
  modelled by `parseDecimal`; `none` plays the role of `NaN` (comparisons
  against `NaN` are `false`, modelled by `ltOptQ`).
-/

namespace VpsCompare

/-- A log entry emitted through `console.warn`, `console.error` or
`console.log`. -/
inductive LogEntry where
  | warn (msg : String)
  | error (msg : String)
  | info (msg : String)
deriving DecidableEq, Repr

/-- Whether a log entry is an error log. -/
def LogEntry.isError : LogEntry → Bool
  | .error _ => true
  | _ => false

/-- Whether a log entry is a warning log. -/
def LogEntry.isWarn : LogEntry → Bool
  | .warn _ => true
  | _ => false

/-- Number of error logs in a log list. -/
def errorCount (l : List LogEntry) : Nat := (l.filter LogEntry.isError).length

/-- Number of warning logs in a log list. -/
def warnCount (l : List LogEntry) : Nat := (l.filter LogEntry.isWarn).length

/-- An HTTP response as the adapters observe it: the `ok` flag, the numeric
status, the status text, and the outcome of decoding the body with
`.json()` (which can reject). -/
structure HttpResponse (α : Type) where
  ok : Bool
  status : Nat := 200
  statusText : String := ""
  body : Except String α
deriving Repr

/-- Whether an `Except` value is an error. -/
def exceptFailed {ε α : Type} : Except ε α → Bool
  | .error _ => true
  | .ok _ => false

/-- The environment variables consulted by the adapters
(`process.env.<NAME>`); `none` models an unset variable. -/
structure Env where
  DIGITALOCEAN_API_KEY : Option String := none
  HETZNER_API_KEY : Option String := none
  HETZNER_INCLUDE_ARM : Option String := none
  VULTR_API_KEY : Option String := none
  UPCLOUD_USERNAME : Option String := none
  UPCLOUD_PASSWORD : Option String := none
  SCALEWAY_API_KEY : Option String := none
deriving DecidableEq, Repr

/-- JS falsiness of an optional string: `!x` is true when the variable is
unset or the empty string. -/
def isFalsy : Option String → Bool
  | none => true
  | some s => s.isEmpty

/-- JS `a || b` on an optional string (empty string falls through to the
fallback, as in `size.description || ...`). -/
def orElseStr (o : Option String) (fallback : String) : String :=
  match o with
  | some s => if s.isEmpty then fallback else s
  | none => fallback

/-- Substring test (JS `String.prototype.includes`), also used to state that
a log message mentions an environment-variable name. -/
def strContains (hay needle : String) : Bool :=
  hay.toList.tails.any fun t => needle.toList.isPrefixOf t

/-- JS `String.prototype.toLowerCase` on the ASCII identifiers the
providers use. -/
def jsToLower (s : String) : String := String.mk (s.data.map Char.toLower)

/-- JS `String.prototype.toUpperCase` on the ASCII identifiers the
providers use. -/
def jsToUpper (s : String) : String := String.mk (s.data.map Char.toUpper)

/-- Numeric value of a list of decimal digit characters. -/
def digitsVal (cs : List Char) : ℕ :=
  cs.foldl (fun a c => a * 10 + (c.toNat - 48)) 0

/-- JS `parseFloat` restricted to the plain decimal strings the provider
APIs return (optional fractional part); `none` models `NaN`. -/
def parseDecimal (s : String) : Option ℚ :=
  let cs := s.toList
  let intPart := cs.takeWhile Char.isDigit
  let rest := cs.dropWhile Char.isDigit
  if intPart.isEmpty then none
  else
    match rest with
    | [] => some (digitsVal intPart : ℚ)
    | c :: frac =>
      if c == '.' && !frac.isEmpty && frac.all Char.isDigit then
        some ((digitsVal intPart : ℚ) + (digitsVal frac : ℚ) / ((10 : ℚ) ^ frac.length))
      else none

/-- Comparison of two parsed prices as JS `<` compares two `parseFloat`
results: any comparison involving `NaN` (here `none`) is `false`. -/
def ltOptQ : Option ℚ → Option ℚ → Bool
  | some a, some b => decide (a < b)
  | _, _ => false

/-- JS `Math.round`: round half toward positive infinity. -/
def jsRound (q : ℚ) : ℤ := ⌊q + 1 / 2⌋

/-- Rendering of a JS number inside a template literal; matches JS for the
integral values that occur in the embedded code paths. -/
def qstr (q : ℚ) : String :=
  if q.den = 1 then toString q.num else toString q

/-- The canonical output record of an adapter (a candidate `NormalizedPlan`).
Field layout follows the object literals the adapters build. -/
structure Price where
  monthly : ℚ
  yearly : Option ℚ := none
  currency : String
deriving DecidableEq, Repr

/-- CPU spec sub-record. -/
structure CpuSpec where
  cores : ℚ
  type : String
deriving DecidableEq, Repr

/-- RAM spec sub-record. -/
structure RamSpec where
  amount : ℚ
  unit : String
deriving DecidableEq, Repr

/-- Storage spec sub-record. -/
structure StorageSpec where
  amount : ℚ
  unit : String
  type : String
deriving DecidableEq, Repr

/-- Bandwidth spec sub-record. -/
structure BandwidthSpec where
  amount : Option ℚ
  unit : String
  unlimited : Bool
deriving DecidableEq, Repr

/-- Specs sub-record. -/
structure Specs where
  cpu : CpuSpec
  ram : RamSpec
  storage : StorageSpec
  bandwidth : BandwidthSpec
deriving DecidableEq, Repr

/-- Uptime sub-record. -/
structure Uptime where
  percentage : ℚ
  sla : Bool
deriving DecidableEq, Repr

/-- A candidate plan record as the adapters emit it. -/
structure Plan where
  id : String
  provider : String
  name : String
  price : Price
  specs : Specs
  features : List String
  locations : List String
  uptime : Uptime
  support : String
  website : String
  tags : List String
  description : Option String := none
  featured : Bool
deriving DecidableEq, Repr

/-- Shallow model of `z.string().url()` adequate for the constant website
URLs the adapters emit. -/
def validUrl (s : String) : Bool :=
  ("http://".toList.isPrefixOf s.toList && 7 < s.length) ||
  ("https://".toList.isPrefixOf s.toList && 8 < s.length)

/-- Positivity of an optional rational (for the optional `yearly` price). -/
def posOpt (o : Option ℚ) : Bool := o.all fun y => decide (0 < y)

/-- Non-negativity of an optional rational (for the optional bandwidth
amount). -/
def nonnegOpt (o : Option ℚ) : Bool := o.all fun y => decide (0 ≤ y)

/-- The constraints of `vpsSchema` (src/content.config.ts lines 4-49) on a
candidate record: a plan satisfies `ValidPlan` exactly when the zod
validation succeeds with zero errors. Fields with declared defaults are
always present in the adapters' outputs, so defaulting plays no role here. -/
def ValidPlan (p : Plan) : Prop :=
  0 < p.id.length ∧
  0 < p.provider.length ∧
  0 < p.name.length ∧
  0 < p.price.monthly ∧
  posOpt p.price.yearly = true ∧
  p.price.currency ∈ ["USD", "EUR", "GBP"] ∧
  p.specs.cpu.cores.den = 1 ∧
  0 < p.specs.cpu.cores ∧
  p.specs.cpu.type ∈ ["vCPU", "CPU", "Core"] ∧
  0 < p.specs.ram.amount ∧
  p.specs.ram.unit ∈ ["MB", "GB", "TB"] ∧
  0 < p.specs.storage.amount ∧
  p.specs.storage.unit ∈ ["GB", "TB"] ∧
  p.specs.storage.type ∈ ["SSD", "NVMe", "HDD", "EBS"] ∧
  nonnegOpt p.specs.bandwidth.amount = true ∧
  p.specs.bandwidth.unit ∈ ["GB", "TB"] ∧
  0 < p.features.length ∧
  0 < p.locations.length ∧
  0 ≤ p.uptime.percentage ∧
  p.uptime.percentage ≤ 100 ∧
  0 < p.support.length ∧
  validUrl p.website = true

instance (p : Plan) : Decidable (ValidPlan p) := by
  unfold ValidPlan; infer_instance

/-! ## DigitalOcean adapter (src/content.config.ts, `fetchDigitalOceanPlans`) -/

/-- A DigitalOcean size record (`DOSize`). -/
structure DOSize where
  slug : String
  available : Bool
  memory : ℚ
  vcpus : ℚ
  disk : ℚ
  transfer : ℚ
  price_monthly : ℚ
  regions : List String
  description : Option String := none
deriving DecidableEq, Repr

/-- A DigitalOcean region record (`DORegion`). -/
structure DORegion where
  slug : String
  name : String
  available : Bool
deriving DecidableEq, Repr

/-- Body of `/v2/sizes` (`DOSizesResponse`). -/
structure DOSizesResponse where
  sizes : List DOSize
deriving Repr

/-- Body of `/v2/regions` (`DORegionsResponse`). -/
structure DORegionsResponse where
  regions : List DORegion
deriving Repr

/-- Tag cascade of the DigitalOcean adapter. -/
def doTags (size : DOSize) : List String :=
  ["cloud", "scalable", "developer-friendly", "popular"] ++
  (if size.price_monthly ≤ 10 then ["budget"] else []) ++
  (if 4 ≤ size.vcpus then ["high-performance"] else []) ++
  (if 8192 ≤ size.memory then ["high-memory"] else [])

/-- The map body of the DigitalOcean adapter: one accepted raw size record
to one candidate plan. -/
def doPlanOf (regions : List DORegion) (size : DOSize) : Plan :=
  let availableRegions :=
    (regions.filter fun region => region.available && size.regions.contains region.slug).map
      DORegion.name
  { id := "digitalocean-" ++ size.slug
    provider := "DigitalOcean"
    name := orElseStr size.description (qstr size.memory ++ "MB / " ++ qstr size.vcpus ++ " vCPU")
    price := { monthly := size.price_monthly, currency := "USD" }
    specs :=
      { cpu := { cores := size.vcpus, type := "vCPU" }
        ram :=
          { amount := if 1024 ≤ size.memory then size.memory / 1024 else size.memory
            unit := if 1024 ≤ size.memory then "GB" else "MB" }
        storage := { amount := size.disk, unit := "GB", type := "SSD" }
        bandwidth := { amount := some size.transfer, unit := "TB", unlimited := false } }
    features :=
      ["SSD Storage", "IPv6", "Monitoring", "Firewalls", "Private Networking",
       "Load Balancers", "Snapshots", "Backups"]
    locations := availableRegions.take 10
    uptime := { percentage := 99.99, sla := false }
    support := "24/7 Community & Ticket Support"
    website := "https://digitalocean.com"
    featured := ["s-1vcpu-1gb", "s-2vcpu-2gb"].contains size.slug
    tags := doTags size }

/-- The `try` block of the DigitalOcean adapter: status checks, body
decoding, filtering and transformation; a thrown exception is an
`Except.error`. -/
def fetchDigitalOceanPlansBody (sizesResp : HttpResponse DOSizesResponse)
    (regionsResp : HttpResponse DORegionsResponse) : Except String (List Plan) := do
  if !sizesResp.ok || !regionsResp.ok then
    throw "Failed to fetch DigitalOcean data"
  let sizesData ← sizesResp.body
  let regionsData ← regionsResp.body
  pure ((sizesData.sizes.filter fun size => size.available && decide (512 ≤ size.memory)).map
    (doPlanOf regionsData.regions))

/-- `fetchDigitalOceanPlans`: credential gate, then the `try`/`catch`
wrapper around the body. Returns the plans and the logs emitted. -/
def fetchDigitalOceanPlans (env : Env) (sizesResp : HttpResponse DOSizesResponse)
    (regionsResp : HttpResponse DORegionsResponse) : List Plan × List LogEntry :=
  if isFalsy env.DIGITALOCEAN_API_KEY then
    ([], [LogEntry.warn "DIGITALOCEAN_API_KEY not set, skipping DigitalOcean plans"])
  else
    match fetchDigitalOceanPlansBody sizesResp regionsResp with
    | Except.ok plans => (plans, [])
    | Except.error e => ([], [LogEntry.error ("Failed to fetch DigitalOcean plans: " ++ e)])

/-! ## Hetzner adapter (src/content.config.ts, `fetchHetznerPlans`) -/

/-- A Hetzner tiered price (`HetznerPrice`); the nested
`price_monthly.gross` string is flattened into one field. -/
structure HetznerPrice where
  price_monthly_gross : String
deriving DecidableEq, Repr

/-- A Hetzner server type (`HetznerServerType`). -/
structure HetznerServerType where
  name : String
  description : Option String := none
  cores : ℚ
  memory : ℚ
  disk : ℚ
  deprecated : Bool
  architecture : String
  cpu_type : String
  storage_type : String
  prices : List HetznerPrice
deriving DecidableEq, Repr

/-- A Hetzner location record (`HetznerLocation`). -/
structure HetznerLocation where
  city : String
  country : String
deriving DecidableEq, Repr

/-- Body of `/v1/server_types` (`HetznerServerTypesResponse`). -/
structure HetznerServerTypesResponse where
  server_types : List HetznerServerType
deriving Repr

/-- Body of `/v1/locations` (`HetznerLocationsResponse`). -/
structure HetznerLocationsResponse where
  locations : List HetznerLocation
deriving Repr

/-- The parsed numeric value of a Hetzner price (`parseFloat` of the gross
monthly string); `NaN` is defaulted to `0`, which no theorem below relies
on (all price hypotheses require parseability). -/
def parsedValD (pr : HetznerPrice) : ℚ := (parseDecimal pr.price_monthly_gross).getD 0

/-- The `prices.reduce` of the Hetzner adapter: keep the current accumulator
unless the current tier's parsed price is strictly smaller (so ties and
`NaN` comparisons keep the earlier tier). `none` models the `TypeError`
that `reduce` throws on an empty array. -/
def cheapestHetznerPrice : List HetznerPrice → Option HetznerPrice
  | [] => none
  | p :: ps =>
    some (ps.foldl
      (fun acc cur =>
        if ltOptQ (parseDecimal cur.price_monthly_gross) (parseDecimal acc.price_monthly_gross)
        then cur else acc)
      p)

/-- Filter stage of the Hetzner adapter: drop deprecated server types, and
drop non-x86 architectures unless `HETZNER_INCLUDE_ARM` is `'true'`. -/
def hetznerFiltered (env : Env) (serverTypes : List HetznerServerType) :
    List HetznerServerType :=
  (serverTypes.filter fun st => !st.deprecated).filter fun st =>
    st.architecture == "x86" || env.HETZNER_INCLUDE_ARM == some "true"

/-- Tag cascade of the Hetzner adapter. -/
def hetznerTags (st : HetznerServerType) (monthlyPrice : ℚ) : List String :=
  ["europe", "budget", "high-bandwidth"] ++
  (if monthlyPrice ≤ 5 then ["ultra-budget"] else []) ++
  (if 4 ≤ st.cores then ["high-performance"] else []) ++
  (if 16 ≤ st.memory then ["high-memory"] else []) ++
  (if st.architecture == "arm64" then ["arm", "energy-efficient"] else [])

/-- The map body of the Hetzner adapter, given the cheapest tiered price
selected by `cheapestHetznerPrice`. -/
def hetznerPlanOf (locations : List HetznerLocation) (st : HetznerServerType)
    (cheapestPrice : HetznerPrice) : Plan :=
  let monthlyPrice := parsedValD cheapestPrice
  { id := "hetzner-" ++ jsToLower st.name
    provider := "Hetzner"
    name := st.name
    description := st.description
    price := { monthly := monthlyPrice, currency := "EUR" }
    specs :=
      { cpu := { cores := st.cores, type := if st.cpu_type == "shared" then "vCPU" else "CPU" }
        ram := { amount := st.memory, unit := "GB" }
        storage :=
          { amount := st.disk, unit := "GB"
            type := if st.storage_type == "local" then "SSD" else "NVMe" }
        bandwidth := { amount := some 20, unit := "TB", unlimited := false } }
    features :=
      ["SSD Storage", "IPv6", "Private Networking", "Snapshots", "Backups",
       "Load Balancers", "Floating IPs", "DDoS Protection"]
    locations := locations.map fun loc => loc.city ++ ", " ++ loc.country
    uptime := { percentage := 99.9, sla := false }
    support := "Business Hours Support"
    website := "https://hetzner.com"
    featured := ["cx11", "cx21", "cx31"].contains (jsToLower st.name)
    tags := hetznerTags st monthlyPrice }

/-- The `.map` stage of the Hetzner adapter, evaluated left to right:
`prices.reduce` throws a `TypeError` on an empty price array, aborting the
whole transformation at that element. -/
def hetznerTransformAll (locations : List HetznerLocation) :
    List HetznerServerType → Except String (List Plan)
  | [] => Except.ok []
  | st :: rest =>
    match cheapestHetznerPrice st.prices with
    | none => Except.error "Reduce of empty array with no initial value"
    | some c =>
      match hetznerTransformAll locations rest with
      | Except.error e => Except.error e
      | Except.ok plans => Except.ok (hetznerPlanOf locations st c :: plans)

/-- The `try` block of the Hetzner adapter. -/
def fetchHetznerPlansBody (env : Env) (stResp : HttpResponse HetznerServerTypesResponse)
    (locResp : HttpResponse HetznerLocationsResponse) : Except String (List Plan) := do
  if !stResp.ok || !locResp.ok then
    throw "Failed to fetch Hetzner data"
  let stData ← stResp.body
  let locData ← locResp.body
  hetznerTransformAll locData.locations (hetznerFiltered env stData.server_types)

/-- `fetchHetznerPlans`: credential gate, then the `try`/`catch` wrapper. -/
def fetchHetznerPlans (env : Env) (stResp : HttpResponse HetznerServerTypesResponse)
    (locResp : HttpResponse HetznerLocationsResponse) : List Plan × List LogEntry :=
  if isFalsy env.HETZNER_API_KEY then
    ([], [LogEntry.warn "HETZNER_API_KEY not set, skipping Hetzner plans"])
  else
    match fetchHetznerPlansBody env stResp locResp with
    | Except.ok plans => (plans, [])
    | Except.error e => ([], [LogEntry.error ("Failed to fetch Hetzner plans: " ++ e)])

/-! ## Linode adapter (src/content.config.ts, `fetchLinodePlans`) -/

/-- A Linode type record (`LinodeType`); the nested `price.monthly` is
flattened into `price_monthly`, and the `class` field is named
`planClass` (`class` is a Lean keyword). -/
structure LinodeType where
  id : String
  label : String
  planClass : String
  vcpus : ℚ
  memory : ℚ
  disk : ℚ
  transfer : ℚ
  price_monthly : ℚ
deriving DecidableEq, Repr

/-- A Linode region record (`LinodeRegion`). -/
structure LinodeRegion where
  status : String
  label : String
deriving DecidableEq, Repr

/-- Body of `/v4/linode/types` (`LinodeTypesResponse`). -/
structure LinodeTypesResponse where
  data : List LinodeType
deriving Repr

/-- Body of `/v4/regions` (`LinodeRegionsResponse`). -/
structure LinodeRegionsResponse where
  data : List LinodeRegion
deriving Repr

/-- `getClassFeatures` of the Linode adapter. -/
def getClassFeatures (planClass : String) : List String :=
  let baseFeatures :=
    ["SSD Storage", "IPv6", "Private Networking", "DDoS Protection", "Monitoring",
     "Backup Service", "API Access", "Cloud Firewall"]
  if planClass == "nanode" then baseFeatures ++ ["Shared CPU"]
  else if planClass == "standard" then baseFeatures ++ ["Shared CPU", "Burstable Performance"]
  else if planClass == "dedicated" then baseFeatures ++ ["Dedicated CPU", "Sustained Performance"]
  else if planClass == "highmem" then
    baseFeatures ++ ["High Memory", "Optimized for Memory-Intensive Applications"]
  else if planClass == "premium" then
    baseFeatures ++ ["Premium Hardware", "Enhanced Performance", "Advanced Networking"]
  else baseFeatures

/-- JS `s.charAt(0).toUpperCase() + s.slice(1)`. -/
def capitalize (s : String) : String :=
  match s.toList with
  | [] => ""
  | c :: rest => String.mk (c.toUpper :: rest)

/-- `getTypeName` of the Linode adapter. -/
def getTypeName (planClass : String) : String :=
  if planClass == "nanode" then "Nanode"
  else if planClass == "standard" then "Standard"
  else if planClass == "dedicated" then "Dedicated CPU"
  else if planClass == "highmem" then "High Memory"
  else if planClass == "premium" then "Premium"
  else capitalize planClass

/-- Tag cascade of the Linode adapter. -/
def linodeTags (t : LinodeType) : List String :=
  ["reliable", "developer-friendly"] ++
  (if t.price_monthly ≤ 10 then ["budget"] else []) ++
  (if t.planClass == "dedicated" then ["high-performance", "dedicated"] else []) ++
  (if t.planClass == "highmem" then ["high-memory"] else []) ++
  (if t.planClass == "premium" then ["premium", "enhanced"] else []) ++
  (if t.planClass == "nanode" then ["entry-level"] else [])

/-- The map body of the Linode adapter. -/
def linodePlanOf (regions : List LinodeRegion) (t : LinodeType) : Plan :=
  let availableRegions :=
    ((regions.filter fun region => region.status == "ok").map LinodeRegion.label).take 10
  { id := "linode-" ++ t.id
    provider := "Linode"
    name := getTypeName t.planClass ++ " " ++ t.label
    price := { monthly := t.price_monthly, currency := "USD" }
    specs :=
      { cpu := { cores := t.vcpus, type := if t.planClass == "dedicated" then "CPU" else "vCPU" }
        ram :=
          { amount := if 1024 ≤ t.memory then t.memory / 1024 else t.memory
            unit := if 1024 ≤ t.memory then "GB" else "MB" }
        storage :=
          { amount := if 1024 ≤ t.disk then t.disk / 1024 else t.disk
            unit := if 1024 ≤ t.disk then "GB" else "MB"
            type := "SSD" }
        bandwidth :=
          { amount := some (if 1024 ≤ t.transfer then t.transfer / 1024 else t.transfer)
            unit := if 1024 ≤ t.transfer then "TB" else "GB"
            unlimited := false } }
    features := getClassFeatures t.planClass
    locations := availableRegions
    uptime := { percentage := 99.9, sla := true }
    support := "24/7 Support"
    website := "https://linode.com"
    featured := ["g6-nanode-1", "g6-standard-1", "g6-standard-2"].contains t.id
    tags := linodeTags t }

/-- The `try` block of the Linode adapter (no credential gate: the Linode
endpoints need no API key). -/
def fetchLinodePlansBody (typesResp : HttpResponse LinodeTypesResponse)
    (regionsResp : HttpResponse LinodeRegionsResponse) : Except String (List Plan) := do
  if !typesResp.ok || !regionsResp.ok then
    throw "Failed to fetch Linode data"
  let typesData ← typesResp.body
  let regionsData ← regionsResp.body
  pure
    ((typesData.data.filter fun t => !(t.planClass == "gpu") && !(t.planClass == "accelerated")).map
      (linodePlanOf regionsData.data))

/-- `fetchLinodePlans`: the `try`/`catch` wrapper around the body. -/
def fetchLinodePlans (typesResp : HttpResponse LinodeTypesResponse)
    (regionsResp : HttpResponse LinodeRegionsResponse) : List Plan × List LogEntry :=
  match fetchLinodePlansBody typesResp regionsResp with
  | Except.ok plans => (plans, [])
  | Except.error e => ([], [LogEntry.error ("Failed to fetch Linode plans: " ++ e)])

/-! ## Vultr adapter (src/loaders/vultr.ts, `fetchVultrPlans`) -/

/-- A Vultr plan record (`VultrPlan`); `ram` is in MB, `disk` and
`bandwidth` in GB, `monthly_cost` in USD. -/
structure VultrPlan where
  id : String
  vcpu_count : ℚ
  ram : ℚ
  disk : ℚ
  bandwidth : ℚ
  monthly_cost : ℚ
  type : String
  locations : List String
deriving DecidableEq, Repr

/-- A Vultr region record (`VultrRegion`). -/
structure VultrRegion where
  id : String
  city : String
  country : String
  continent : String := ""
  options : List String := []
deriving DecidableEq, Repr

/-- Body of `/v2/plans` (`VultrPlansResponse`). -/
structure VultrPlansResponse where
  plans : List VultrPlan
deriving Repr

/-- Body of `/v2/regions` (`VultrRegionsResponse`). -/
structure VultrRegionsResponse where
  regions : List VultrRegion
deriving Repr

/-- Lookup in the region map the adapter builds with `Map.set` over
`regions.forEach` (later entries overwrite earlier ones, hence the
reversed search). -/
def vultrRegionMapGet (regions : List VultrRegion) (locId : String) : Option String :=
  (regions.reverse.find? fun r => r.id == locId).map fun r => r.city ++ ", " ++ r.country

/-- Feature derivation of the Vultr adapter. -/
def vultrFeatures (plan : VultrPlan) : List String :=
  (if plan.type == "vc2" then ["Cloud Compute", "DDoS Protection", "100% SSD Storage"]
   else if plan.type == "vhf" then
     ["High Frequency", "3 GHz+ CPU", "NVMe Storage", "DDoS Protection"]
   else if plan.type == "vhp" then
     ["High Performance", "Latest CPU", "NVMe Storage", "DDoS Protection"]
   else if plan.type == "vdc" then
     ["Dedicated CPU", "100% Dedicated Resources", "NVMe Storage"]
   else []) ++
  ["Full Root Access", "IPv6 Support"]

/-- Tag cascade of the Vultr adapter. -/
def vultrTags (plan : VultrPlan) : List String :=
  ["global"] ++
  (if plan.monthly_cost ≤ 6 then ["budget", "ultra-budget"]
   else if plan.monthly_cost ≤ 12 then ["budget"] else []) ++
  (if plan.type == "vhf" || plan.type == "vhp" then ["high-performance"] else []) ++
  (if plan.type == "vdc" then ["dedicated", "high-performance"] else []) ++
  (if 8 ≤ plan.ram / 1024 then ["high-memory"] else []) ++
  (if 2048 ≤ plan.bandwidth then ["high-bandwidth"] else [])

/-- The map body of the Vultr adapter. RAM is always divided by 1024 and
reported in GB, regardless of the raw MB value. -/
def vultrPlanOf (regions : List VultrRegion) (plan : VultrPlan) : Plan :=
  let ramInGB := plan.ram / 1024
  { id := "vultr-" ++ plan.id
    provider := "Vultr"
    name := jsToUpper plan.id
    price := { monthly := plan.monthly_cost, currency := "USD" }
    specs :=
      { cpu :=
          { cores := plan.vcpu_count
            type := if plan.type == "vdc" then "CPU" else "vCPU" }
        ram := { amount := ramInGB, unit := "GB" }
        storage :=
          { amount := plan.disk, unit := "GB"
            type :=
              if plan.type == "vhf" || plan.type == "vhp" || plan.type == "vdc" then "NVMe"
              else "SSD" }
        bandwidth := { amount := some (plan.bandwidth / 1024), unit := "TB", unlimited := false } }
    features := vultrFeatures plan
    locations := (plan.locations.take 10).map fun locId =>
      (vultrRegionMapGet regions locId).getD locId
    uptime := { percentage := 99.99, sla := true }
    support := "24/7 Support"
    website := "https://www.vultr.com"
    tags := vultrTags plan
    featured := ["vc2-1c-1gb", "vc2-1c-2gb", "vc2-2c-4gb"].contains plan.id }

/-- The `try` block of the Vultr adapter: separate status checks with
status detail in the messages, then body decoding and transformation. -/
def fetchVultrPlansBody (plansResp : HttpResponse VultrPlansResponse)
    (regionsResp : HttpResponse VultrRegionsResponse) : Except String (List Plan) := do
  if !plansResp.ok then
    throw ("Failed to fetch Vultr plans: " ++ toString plansResp.status ++ " " ++
      plansResp.statusText)
  if !regionsResp.ok then
    throw ("Failed to fetch Vultr regions: " ++ toString regionsResp.status ++ " " ++
      regionsResp.statusText)
  let plansData ← plansResp.body
  let regionsData ← regionsResp.body
  pure
    ((plansData.plans.filter fun plan =>
        ["vc2", "vhf", "vhp", "vdc"].contains plan.type).map
      (vultrPlanOf regionsData.regions))

/-- `fetchVultrPlans`: credential gate, `try`/`catch` wrapper, and the
success log line. -/
def fetchVultrPlans (env : Env) (plansResp : HttpResponse VultrPlansResponse)
    (regionsResp : HttpResponse VultrRegionsResponse) : List Plan × List LogEntry :=
  if isFalsy env.VULTR_API_KEY then
    ([], [LogEntry.warn "⚠️  VULTR_API_KEY not set, skipping Vultr plans"])
  else
    match fetchVultrPlansBody plansResp regionsResp with
    | Except.ok plans =>
      (plans, [LogEntry.info ("✅ Fetched " ++ toString plans.length ++ " plans from Vultr")])
    | Except.error e => ([], [LogEntry.error ("❌ Failed to fetch Vultr plans: " ++ e)])

/-! ## UpCloud adapter (`fetchUpCloudPlans`, UpCloud loader) -/

/-- An UpCloud plan record (`UpCloudPlan`); `memory_amount` in MB,
`public_traffic_out` and `storage_size` in GB. -/
structure UpCloudPlan where
  core_number : ℚ
  memory_amount : ℚ
  name : String
  public_traffic_out : ℚ
  storage_size : ℚ
  storage_tier : String
deriving DecidableEq, Repr

/-- Body of `/1.3/plan` (`UpCloudPlansResponse`, with the nested
`plans.plan` array flattened). -/
structure UpCloudPlansResponse where
  plans : List UpCloudPlan
deriving Repr

/-- One zone of the UpCloud pricing object: the zone key and its entries
(entry key such as `server_plan_1xCPU-2GB`, hourly price string), in the
object's insertion order. -/
structure UpCloudZonePricing where
  zone : String
  entries : List (String × String)
deriving DecidableEq, Repr

/-- Body of `/1.3/price` (`UpCloudPricing`), the `prices.zone` object as an
ordered list of zones. -/
structure UpCloudPricing where
  zoneList : List UpCloudZonePricing
deriving Repr

/-- An UpCloud zone record (`UpCloudZone`). -/
structure UpCloudZone where
  id : String
  description : String
deriving DecidableEq, Repr

/-- Body of `/1.3/zone` (`UpCloudZonesResponse`, nested `zones.zone`
flattened). -/
structure UpCloudZonesResponse where
  zones : List UpCloudZone
deriving Repr

/-- The pricing lookup
`pricingData.prices.zone[firstZone]?.['server_plan_' + plan.name]` where
`firstZone` is the first key of the zone object. -/
def upcloudPlanPricing (pricing : UpCloudPricing) (planName : String) : Option String :=
  match pricing.zoneList.head? with
  | none => none
  | some z => (z.entries.find? fun e => e.fst == "server_plan_" ++ planName).map Prod.snd

/-- Monthly price derivation of the UpCloud adapter: hourly price times 730
hours, rounded to 2 decimal places; a missing pricing entry gives hourly
price 0. -/
def upcloudMonthly (pricing : UpCloudPricing) (planName : String) : ℚ :=
  let hourlyPrice : ℚ :=
    match upcloudPlanPricing pricing planName with
    | some s => (parseDecimal s).getD 0
    | none => 0
  (jsRound (hourlyPrice * 730 * 100) : ℚ) / 100

/-- Feature derivation of the UpCloud adapter. -/
def upcloudFeatures (plan : UpCloudPlan) : List String :=
  ["MaxIOPS Storage", "Full Root Access", "DDoS Protection", "100% Uptime SLA",
   "Private Networking", "Firewall", "IPv6 Support"] ++
  (if plan.storage_tier == "maxiops" then ["NVMe Storage"] else [])

/-- Tag cascade of the UpCloud adapter. -/
def upcloudTags (plan : UpCloudPlan) (monthlyPrice : ℚ) : List String :=
  ["europe", "high-performance"] ++
  (if monthlyPrice ≤ 6 then ["budget", "ultra-budget"]
   else if monthlyPrice ≤ 12 then ["budget"] else []) ++
  (if 8 ≤ plan.memory_amount / 1024 then ["high-memory"] else []) ++
  (if 2048 ≤ plan.public_traffic_out then ["high-bandwidth"] else []) ++
  (if plan.storage_tier == "maxiops" then ["nvme-storage"] else [])

/-- The map body of the UpCloud adapter. RAM is always divided by 1024 and
reported in GB. -/
def upcloudPlanOf (pricing : UpCloudPricing) (zones : List String) (plan : UpCloudPlan) : Plan :=
  let monthlyPrice := upcloudMonthly pricing plan.name
  { id := "upcloud-" ++ jsToLower plan.name
    provider := "UpCloud"
    name := plan.name
    price := { monthly := monthlyPrice, currency := "USD" }
    specs :=
      { cpu := { cores := plan.core_number, type := "vCPU" }
        ram := { amount := plan.memory_amount / 1024, unit := "GB" }
        storage :=
          { amount := plan.storage_size, unit := "GB"
            type := if plan.storage_tier == "maxiops" then "NVMe" else "SSD" }
        bandwidth :=
          { amount := some (plan.public_traffic_out / 1024), unit := "TB", unlimited := false } }
    features := upcloudFeatures plan
    locations := zones.take 10
    uptime := { percentage := 100, sla := true }
    support := "24/7 Support"
    website := "https://upcloud.com"
    tags := upcloudTags plan monthlyPrice
    featured := ["1xCPU-2GB", "2xCPU-4GB", "4xCPU-8GB"].contains plan.name }

/-- The `try` block of the UpCloud adapter: three status checks with status
detail, body decoding, then the transformation. -/
def fetchUpCloudPlansBody (plansResp : HttpResponse UpCloudPlansResponse)
    (pricingResp : HttpResponse UpCloudPricing)
    (zonesResp : HttpResponse UpCloudZonesResponse) : Except String (List Plan) := do
  if !plansResp.ok then
    throw ("Failed to fetch UpCloud plans: " ++ toString plansResp.status ++ " " ++
      plansResp.statusText)
  if !pricingResp.ok then
    throw ("Failed to fetch UpCloud pricing: " ++ toString pricingResp.status ++ " " ++
      pricingResp.statusText)
  if !zonesResp.ok then
    throw ("Failed to fetch UpCloud zones: " ++ toString zonesResp.status ++ " " ++
      zonesResp.statusText)
  let plansData ← plansResp.body
  let pricingData ← pricingResp.body
  let zonesData ← zonesResp.body
  let zones := zonesData.zones.map UpCloudZone.description
  pure (plansData.plans.map (upcloudPlanOf pricingData zones))

/-- `fetchUpCloudPlans`: credential gate (both `UPCLOUD_USERNAME` and
`UPCLOUD_PASSWORD` are required), `try`/`catch` wrapper, success log. -/
def fetchUpCloudPlans (env : Env) (plansResp : HttpResponse UpCloudPlansResponse)
    (pricingResp : HttpResponse UpCloudPricing)
    (zonesResp : HttpResponse UpCloudZonesResponse) : List Plan × List LogEntry :=
  if isFalsy env.UPCLOUD_USERNAME || isFalsy env.UPCLOUD_PASSWORD then
    ([], [LogEntry.warn "⚠️  UPCLOUD_USERNAME or UPCLOUD_PASSWORD not set, skipping UpCloud plans"])
  else
    match fetchUpCloudPlansBody plansResp pricingResp zonesResp with
    | Except.ok plans =>
      (plans, [LogEntry.info ("✅ Fetched " ++ toString plans.length ++ " plans from UpCloud")])
    | Except.error e => ([], [LogEntry.error ("❌ Failed to fetch UpCloud plans: " ++ e)])

/-! ## Scaleway adapter (src/loaders/scaleway.ts, `fetchScalewayPlans`) -/

/-- A Scaleway server type (`ScalewayServerType`); `ram` is in bytes,
`volMin`/`volMax` flatten the nested `volumes_constraint`. -/
structure ScalewayServerType where
  arch : String := ""
  ncpus : ℚ
  ram : ℚ
  volMin : ℚ := 0
  volMax : ℚ
  baremetal : Option Bool := none
  gpu : Option ℚ := none
deriving DecidableEq, Repr

/-- Body of `/products/servers` (`ScalewayServersResponse`): the `servers`
object as an ordered list of (name, server type) entries
(`Object.entries`). -/
structure ScalewayServersResponse where
  servers : List (String × ScalewayServerType)
deriving Repr

/-- Filter of the Scaleway adapter:
`!server.baremetal && (!server.gpu || server.gpu === 0)`. -/
def scalewayKeep (server : ScalewayServerType) : Bool :=
  !(server.baremetal.getD false) && (server.gpu.getD 0 == 0)

/-- The map body of the Scaleway adapter (its price is a heuristic estimate
from cores and RAM, rounded to 2 decimal places). -/
def scalewayPlanOf (entry : String × ScalewayServerType) : Plan :=
  let name := entry.fst
  let server := entry.snd
  let ramInGB := server.ram / (1024 * 1024 * 1024)
  let storageGB := server.volMax / (1024 * 1024 * 1024)
  let basePrice := server.ncpus * 3.5 + ramInGB * 2.5
  let monthlyPrice := (jsRound (basePrice * 100) : ℚ) / 100
  let storageType :=
    if strContains name "GP1" || strContains name "PRO" then "NVMe" else "SSD"
  { id := "scaleway-" ++ jsToLower name
    provider := "Scaleway"
    name := name
    price := { monthly := monthlyPrice, currency := "EUR" }
    specs :=
      { cpu := { cores := server.ncpus, type := "vCPU" }
        ram := { amount := ramInGB, unit := "GB" }
        storage := { amount := (jsRound storageGB : ℚ), unit := "GB", type := storageType }
        bandwidth := { amount := some 100, unit := "TB", unlimited := true } }
    features :=
      ["Full Root Access", "Fast Local Storage", "Private Networks", "Security Groups",
       "IPv6 Support", "Block Storage Compatible"] ++
      (if storageType == "NVMe" then ["NVMe Storage"] else [])
    locations := (["Paris, France", "Amsterdam, Netherlands", "Warsaw, Poland"].take 10)
    uptime := { percentage := 99.9, sla := true }
    support := "24/7 Support"
    website := "https://www.scaleway.com"
    tags :=
      ["europe"] ++
      (if monthlyPrice ≤ 6 then ["budget", "ultra-budget"]
       else if monthlyPrice ≤ 12 then ["budget"] else []) ++
      (if strContains name "DEV1" || strContains name "PLAY2" then ["development"] else []) ++
      (if strContains name "GP1" || strContains name "PRO" then ["high-performance"] else []) ++
      (if 8 ≤ ramInGB then ["high-memory"] else [])
    featured := ["DEV1-S", "DEV1-M", "GP1-S"].contains name }

/-- The `try` block of the Scaleway adapter. -/
def fetchScalewayPlansBody (serversResp : HttpResponse ScalewayServersResponse) :
    Except String (List Plan) := do
  if !serversResp.ok then
    throw ("Failed to fetch Scaleway servers: " ++ toString serversResp.status ++ " " ++
      serversResp.statusText)
  let serversData ← serversResp.body
  pure ((serversData.servers.filter fun entry => scalewayKeep entry.snd).map scalewayPlanOf)

/-- `fetchScalewayPlans`: credential gate, `try`/`catch` wrapper, success
log. -/
def fetchScalewayPlans (env : Env) (serversResp : HttpResponse ScalewayServersResponse) :
    List Plan × List LogEntry :=
  if isFalsy env.SCALEWAY_API_KEY then
    ([], [LogEntry.warn "⚠️  SCALEWAY_API_KEY not set, skipping Scaleway plans"])
  else
    match fetchScalewayPlansBody serversResp with
    | Except.ok plans =>
      (plans, [LogEntry.info ("✅ Fetched " ++ toString plans.length ++ " plans from Scaleway")])
    | Except.error e => ([], [LogEntry.error ("❌ Failed to fetch Scaleway plans: " ++ e)])

/-! ## Collection loader (src/content.config.ts, `vpsPlans.loader`) -/

/-- The inline `vpsPlans` loader: `Promise.all` over the three registered
adapters of `src/content.config.ts`, then concatenation in registration
order. Each argument is the settlement of one adapter's promise
(`Except.error` models a rejected promise); `Promise.all` rejects as soon
as any member rejects, so any rejection propagates. -/
def vpsPlansLoader (doRes hzRes liRes : Except String (List Plan)) :
    Except String (List Plan) :=
  match doRes with
  | Except.error e => Except.error e
  | Except.ok digitalOceanPlans =>
    match hzRes with
    | Except.error e => Except.error e
    | Except.ok hetznerPlans =>
      match liRes with
      | Except.error e => Except.error e
      | Except.ok linodePlans =>
        Except.ok (digitalOceanPlans ++ hetznerPlans ++ linodePlans)

/-- The successfully settled value of a loader run (used only to state
concrete facts about resolved runs). -/
def loaderValue (r : Except String (List Plan)) : List Plan :=
  match r with
  | Except.ok plans => plans
  | Except.error _ => []

/-! ## Helper lemmas -/

theorem ebind_err {ε α β : Type} (e : ε) (f : α → Except ε β) :
    (Except.error e >>= f) = Except.error e := rfl

theorem ebind_ok {ε α β : Type} (a : α) (f : α → Except ε β) :
    (Except.ok a >>= f) = f a := rfl

theorem ethrow_eq {ε α : Type} (e : ε) : (throw e : Except ε α) = Except.error e := rfl

theorem emap_err {ε α β : Type} (e : ε) (f : α → β) :
    (f <$> (Except.error e : Except ε α)) = Except.error e := rfl

theorem emap_ok {ε α β : Type} (a : α) (f : α → β) :
    (f <$> (Except.ok a : Except ε α)) = Except.ok (f a) := rfl

theorem exceptFailed_iff {ε α : Type} (x : Except ε α) :
    exceptFailed x = true ↔ ∃ e, x = Except.error e := by
  cases x <;> simp [exceptFailed]

/-- An adapter call that ended in the `catch` branch: no plans and exactly
one error log. -/
def failsWith (out : List Plan × List LogEntry) : Prop :=
  out.1 = [] ∧ errorCount out.2 = 1

theorem errorCount_single_error (m : String) : errorCount [LogEntry.error m] = 1 := rfl

/-! ### Failure propagation, per adapter -/

theorem do_body_fails (s : HttpResponse DOSizesResponse) (r : HttpResponse DORegionsResponse)
    (h : s.ok = false ∨ r.ok = false ∨ exceptFailed s.body = true ∨ exceptFailed r.body = true) :
    exceptFailed (fetchDigitalOceanPlansBody s r) = true := by
  unfold fetchDigitalOceanPlansBody
  by_cases hc : (!s.ok || !r.ok) = true
  · simp [hc, ethrow_eq, ebind_err, emap_err, exceptFailed]
  · have hs : s.ok = true := by
      cases hso : s.ok <;> simp [hso] at hc ⊢
    have hr : r.ok = true := by
      cases hro : r.ok <;> simp [hro] at hc ⊢
    rcases h with h | h | h | h
    · rw [hs] at h; exact absurd h (by simp)
    · rw [hr] at h; exact absurd h (by simp)
    · obtain ⟨e, he⟩ := (exceptFailed_iff _).mp h
      simp [hc, he, ebind_err, emap_err, exceptFailed]
    · obtain ⟨e, he⟩ := (exceptFailed_iff _).mp h
      cases hsb : s.body with
      | error e' => simp [hc, hsb, ebind_err, emap_err, exceptFailed]
      | ok v => simp [hc, hsb, he, ebind_ok, ebind_err, emap_err, emap_ok, exceptFailed]

theorem do_catch (env : Env) (s : HttpResponse DOSizesResponse)
    (r : HttpResponse DORegionsResponse) (hk : isFalsy env.DIGITALOCEAN_API_KEY = false)
    (h : exceptFailed (fetchDigitalOceanPlansBody s r) = true) :
    failsWith (fetchDigitalOceanPlans env s r) := by
  obtain ⟨e, he⟩ := (exceptFailed_iff _).mp h
  simp [fetchDigitalOceanPlans, hk, he, failsWith, errorCount_single_error]

theorem hetzner_body_fails (env : Env) (s : HttpResponse HetznerServerTypesResponse)
    (r : HttpResponse HetznerLocationsResponse)
    (h : s.ok = false ∨ r.ok = false ∨ exceptFailed s.body = true ∨ exceptFailed r.body = true) :
    exceptFailed (fetchHetznerPlansBody env s r) = true := by
  unfold fetchHetznerPlansBody
  by_cases hc : (!s.ok || !r.ok) = true
  · simp [hc, ethrow_eq, ebind_err, emap_err, exceptFailed]
  · have hs : s.ok = true := by
      cases hso : s.ok <;> simp [hso] at hc ⊢
    have hr : r.ok = true := by
      cases hro : r.ok <;> simp [hro] at hc ⊢
    rcases h with h | h | h | h
    · rw [hs] at h; exact absurd h (by simp)
    · rw [hr] at h; exact absurd h (by simp)
    · obtain ⟨e, he⟩ := (exceptFailed_iff _).mp h
      simp [hc, he, ebind_err, emap_err, exceptFailed]
    · obtain ⟨e, he⟩ := (exceptFailed_iff _).mp h
      cases hsb : s.body with
      | error e' => simp [hc, hsb, ebind_err, emap_err, exceptFailed]
      | ok v => simp [hc, hsb, he, ebind_ok, ebind_err, emap_err, emap_ok, exceptFailed]

theorem hetzner_catch (env : Env) (s : HttpResponse HetznerServerTypesResponse)
    (r : HttpResponse HetznerLocationsResponse) (hk : isFalsy env.HETZNER_API_KEY = false)
    (h : exceptFailed (fetchHetznerPlansBody env s r) = true) :
    failsWith (fetchHetznerPlans env s r) := by
  obtain ⟨e, he⟩ := (exceptFailed_iff _).mp h
  simp [fetchHetznerPlans, hk, he, failsWith, errorCount_single_error]

theorem linode_body_fails (s : HttpResponse LinodeTypesResponse)
    (r : HttpResponse LinodeRegionsResponse)
    (h : s.ok = false ∨ r.ok = false ∨ exceptFailed s.body = true ∨ exceptFailed r.body = true) :
    exceptFailed (fetchLinodePlansBody s r) = true := by
  unfold fetchLinodePlansBody
  by_cases hc : (!s.ok || !r.ok) = true
  · simp [hc, ethrow_eq, ebind_err, emap_err, exceptFailed]
  · have hs : s.ok = true := by
      cases hso : s.ok <;> simp [hso] at hc ⊢
    have hr : r.ok = true := by
      cases hro : r.ok <;> simp [hro] at hc ⊢
    rcases h with h | h | h | h
    · rw [hs] at h; exact absurd h (by simp)
    · rw [hr] at h; exact absurd h (by simp)
    · obtain ⟨e, he⟩ := (exceptFailed_iff _).mp h
      simp [hc, he, ebind_err, emap_err, exceptFailed]
    · obtain ⟨e, he⟩ := (exceptFailed_iff _).mp h
      cases hsb : s.body with
      | error e' => simp [hc, hsb, ebind_err, emap_err, exceptFailed]
      | ok v => simp [hc, hsb, he, ebind_ok, ebind_err, emap_err, emap_ok, exceptFailed]

theorem linode_catch (s : HttpResponse LinodeTypesResponse)
    (r : HttpResponse LinodeRegionsResponse)
    (h : exceptFailed (fetchLinodePlansBody s r) = true) :
    failsWith (fetchLinodePlans s r) := by
  obtain ⟨e, he⟩ := (exceptFailed_iff _).mp h
  simp [fetchLinodePlans, he, failsWith, errorCount_single_error]

theorem vultr_body_fails (s : HttpResponse VultrPlansResponse)
    (r : HttpResponse VultrRegionsResponse)
    (h : s.ok = false ∨ r.ok = false ∨ exceptFailed s.body = true ∨ exceptFailed r.body = true) :
    exceptFailed (fetchVultrPlansBody s r) = true := by
  unfold fetchVultrPlansBody
  cases hso : s.ok with
  | false => simp [ethrow_eq, ebind_err, emap_err, exceptFailed]
  | true =>
    cases hro : r.ok with
    | false => simp [ethrow_eq, ebind_err, emap_err, exceptFailed]
    | true =>
      rcases h with h | h | h | h
      · rw [hso] at h; exact absurd h (by simp)
      · rw [hro] at h; exact absurd h (by simp)
      · obtain ⟨e, he⟩ := (exceptFailed_iff _).mp h
        simp [he, ebind_err, emap_err, exceptFailed]
      · obtain ⟨e, he⟩ := (exceptFailed_iff _).mp h
        cases hsb : s.body with
        | error e' => simp [hsb, ebind_err, emap_err, exceptFailed]
        | ok v => simp [hsb, he, ebind_ok, ebind_err, emap_err, emap_ok, exceptFailed]

theorem vultr_catch (env : Env) (s : HttpResponse VultrPlansResponse)
    (r : HttpResponse VultrRegionsResponse) (hk : isFalsy env.VULTR_API_KEY = false)
    (h : exceptFailed (fetchVultrPlansBody s r) = true) :
    failsWith (fetchVultrPlans env s r) := by
  obtain ⟨e, he⟩ := (exceptFailed_iff _).mp h
  simp [fetchVultrPlans, hk, he, failsWith, errorCount_single_error]

theorem upcloud_body_fails (p : HttpResponse UpCloudPlansResponse)
    (pr : HttpResponse UpCloudPricing) (z : HttpResponse UpCloudZonesResponse)
    (h : p.ok = false ∨ pr.ok = false ∨ z.ok = false ∨ exceptFailed p.body = true ∨
      exceptFailed pr.body = true ∨ exceptFailed z.body = true) :
    exceptFailed (fetchUpCloudPlansBody p pr z) = true := by
  unfold fetchUpCloudPlansBody
  cases hpo : p.ok with
  | false => simp [ethrow_eq, ebind_err, emap_err, exceptFailed]
  | true =>
    cases hpro : pr.ok with
    | false => simp [ethrow_eq, ebind_err, emap_err, exceptFailed]
    | true =>
      cases hzo : z.ok with
      | false => simp [ethrow_eq, ebind_err, emap_err, exceptFailed]
      | true =>
        rcases h with h | h | h | h | h | h
        · rw [hpo] at h; exact absurd h (by simp)
        · rw [hpro] at h; exact absurd h (by simp)
        · rw [hzo] at h; exact absurd h (by simp)
        · obtain ⟨e, he⟩ := (exceptFailed_iff _).mp h
          simp [he, ebind_err, emap_err, exceptFailed]
        · obtain ⟨e, he⟩ := (exceptFailed_iff _).mp h
          cases hpb : p.body with
          | error e' => simp [hpb, ebind_err, emap_err, exceptFailed]
          | ok v => simp [hpb, he, ebind_ok, ebind_err, emap_err, emap_ok, exceptFailed]
        · obtain ⟨e, he⟩ := (exceptFailed_iff _).mp h
          cases hpb : p.body with
          | error e' => simp [hpb, ebind_err, emap_err, exceptFailed]
          | ok v =>
            cases hprb : pr.body with
            | error e' => simp [hpb, hprb, ebind_ok, ebind_err, emap_err, emap_ok, exceptFailed]
            | ok w => simp [hpb, hprb, he, ebind_ok, ebind_err, emap_err, emap_ok, exceptFailed]

theorem upcloud_catch (env : Env) (p : HttpResponse UpCloudPlansResponse)
    (pr : HttpResponse UpCloudPricing) (z : HttpResponse UpCloudZonesResponse)
    (hu : isFalsy env.UPCLOUD_USERNAME = false) (hp : isFalsy env.UPCLOUD_PASSWORD = false)
    (h : exceptFailed (fetchUpCloudPlansBody p pr z) = true) :
    failsWith (fetchUpCloudPlans env p pr z) := by
  obtain ⟨e, he⟩ := (exceptFailed_iff _).mp h
  simp [fetchUpCloudPlans, hu, hp, he, failsWith, errorCount_single_error]

theorem scaleway_body_fails (s : HttpResponse ScalewayServersResponse)
    (h : s.ok = false ∨ exceptFailed s.body = true) :
    exceptFailed (fetchScalewayPlansBody s) = true := by
  unfold fetchScalewayPlansBody
  cases hso : s.ok with
  | false => simp [ethrow_eq, ebind_err, emap_err, exceptFailed]
  | true =>
    rcases h with h | h
    · rw [hso] at h; exact absurd h (by simp)
    · obtain ⟨e, he⟩ := (exceptFailed_iff _).mp h
      simp [he, ebind_err, emap_err, exceptFailed]

theorem scaleway_catch (env : Env) (s : HttpResponse ScalewayServersResponse)
    (hk : isFalsy env.SCALEWAY_API_KEY = false)
    (h : exceptFailed (fetchScalewayPlansBody s) = true) :
    failsWith (fetchScalewayPlans env s) := by
  obtain ⟨e, he⟩ := (exceptFailed_iff _).mp h
  simp [fetchScalewayPlans, hk, he, failsWith, errorCount_single_error]

/-! ## Claim C1 -/

/-- Claim C1: for every provider adapter, if any of its HTTP responses is
unsuccessful, or any exception is raised during parsing or transformation
(modelled by the adapter's `try` block returning `Except.error`, which
subsumes the status checks, `.json()` rejections and the transformation
throws), `fetchPlans` resolves to the empty sequence and logs exactly one
error; the adapters are total functions into plan-list/log pairs, so the
promise never rejects, and the empty first component means no partial
results are returned. -/
theorem claim_C1 :
    (∀ (env : Env) (s : HttpResponse DOSizesResponse) (r : HttpResponse DORegionsResponse),
      isFalsy env.DIGITALOCEAN_API_KEY = false →
      (s.ok = false ∨ r.ok = false ∨ exceptFailed s.body = true ∨ exceptFailed r.body = true ∨
        exceptFailed (fetchDigitalOceanPlansBody s r) = true) →
      failsWith (fetchDigitalOceanPlans env s r)) ∧
    (∀ (env : Env) (s : HttpResponse HetznerServerTypesResponse)
        (r : HttpResponse HetznerLocationsResponse),
      isFalsy env.HETZNER_API_KEY = false →
      (s.ok = false ∨ r.ok = false ∨ exceptFailed s.body = true ∨ exceptFailed r.body = true ∨
        exceptFailed (fetchHetznerPlansBody env s r) = true) →
      failsWith (fetchHetznerPlans env s r)) ∧
    (∀ (s : HttpResponse LinodeTypesResponse) (r : HttpResponse LinodeRegionsResponse),
      (s.ok = false ∨ r.ok = false ∨ exceptFailed s.body = true ∨ exceptFailed r.body = true ∨
        exceptFailed (fetchLinodePlansBody s r) = true) →
      failsWith (fetchLinodePlans s r)) ∧
    (∀ (env : Env) (s : HttpResponse VultrPlansResponse) (r : HttpResponse VultrRegionsResponse),
      isFalsy env.VULTR_API_KEY = false →
      (s.ok = false ∨ r.ok = false ∨ exceptFailed s.body = true ∨ exceptFailed r.body = true ∨
        exceptFailed (fetchVultrPlansBody s r) = true) →
      failsWith (fetchVultrPlans env s r)) ∧
    (∀ (env : Env) (p : HttpResponse UpCloudPlansResponse) (pr : HttpResponse UpCloudPricing)
        (z : HttpResponse UpCloudZonesResponse),
      isFalsy env.UPCLOUD_USERNAME = false → isFalsy env.UPCLOUD_PASSWORD = false →
      (p.ok = false ∨ pr.ok = false ∨ z.ok = false ∨ exceptFailed p.body = true ∨
        exceptFailed pr.body = true ∨ exceptFailed z.body = true ∨
        exceptFailed (fetchUpCloudPlansBody p pr z) = true) →
      failsWith (fetchUpCloudPlans env p pr z)) ∧
    (∀ (env : Env) (s : HttpResponse ScalewayServersResponse),
      isFalsy env.SCALEWAY_API_KEY = false →
      (s.ok = false ∨ exceptFailed s.body = true ∨
        exceptFailed (fetchScalewayPlansBody s) = true) →
      failsWith (fetchScalewayPlans env s)) := by
  refine ⟨?_, ?_, ?_, ?_, ?_, ?_⟩
  · intro env s r hk h
    refine do_catch env s r hk ?_
    rcases h with h | h | h | h | h
    · exact do_body_fails s r (Or.inl h)
    · exact do_body_fails s r (Or.inr (Or.inl h))
    · exact do_body_fails s r (Or.inr (Or.inr (Or.inl h)))
    · exact do_body_fails s r (Or.inr (Or.inr (Or.inr h)))
    · exact h
  · intro env s r hk h
    refine hetzner_catch env s r hk ?_
    rcases h with h | h | h | h | h
    · exact hetzner_body_fails env s r (Or.inl h)
    · exact hetzner_body_fails env s r (Or.inr (Or.inl h))
    · exact hetzner_body_fails env s r (Or.inr (Or.inr (Or.inl h)))
    · exact hetzner_body_fails env s r (Or.inr (Or.inr (Or.inr h)))
    · exact h
  · intro s r h
    refine linode_catch s r ?_
    rcases h with h | h | h | h | h
    · exact linode_body_fails s r (Or.inl h)
    · exact linode_body_fails s r (Or.inr (Or.inl h))
    · exact linode_body_fails s r (Or.inr (Or.inr (Or.inl h)))
    · exact linode_body_fails s r (Or.inr (Or.inr (Or.inr h)))
    · exact h
  · intro env s r hk h
    refine vultr_catch env s r hk ?_
    rcases h with h | h | h | h | h
    · exact vultr_body_fails s r (Or.inl h)
    · exact vultr_body_fails s r (Or.inr (Or.inl h))
    · exact vultr_body_fails s r (Or.inr (Or.inr (Or.inl h)))
    · exact vultr_body_fails s r (Or.inr (Or.inr (Or.inr h)))
    · exact h
  · intro env p pr z hu hp h
    refine upcloud_catch env p pr z hu hp ?_
    rcases h with h | h | h | h | h | h | h
    · exact upcloud_body_fails p pr z (Or.inl h)
    · exact upcloud_body_fails p pr z (Or.inr (Or.inl h))
    · exact upcloud_body_fails p pr z (Or.inr (Or.inr (Or.inl h)))
    · exact upcloud_body_fails p pr z (Or.inr (Or.inr (Or.inr (Or.inl h))))
    · exact upcloud_body_fails p pr z (Or.inr (Or.inr (Or.inr (Or.inr (Or.inl h)))))
    · exact upcloud_body_fails p pr z (Or.inr (Or.inr (Or.inr (Or.inr (Or.inr h)))))
    · exact h
  · intro env s hk h
    refine scaleway_catch env s hk ?_
    rcases h with h | h | h
    · exact scaleway_body_fails s (Or.inl h)
    · exact scaleway_body_fails s (Or.inr h)
    · exact h

/-- Environment with every credential set (used by concrete runs). -/
def envAll : Env :=
  { DIGITALOCEAN_API_KEY := some "do-key"
    HETZNER_API_KEY := some "hz-key"
    VULTR_API_KEY := some "vu-key"
    UPCLOUD_USERNAME := some "uc-user"
    UPCLOUD_PASSWORD := some "uc-pass"
    SCALEWAY_API_KEY := some "sw-key" }

/-- A failed (HTTP 401) response with a successfully decodable body slot. -/
def resp401 {α : Type} (v : α) : HttpResponse α :=
  { ok := false, status := 401, statusText := "Unauthorized", body := Except.ok v }

/-- A successful response carrying `v`. -/
def respOk {α : Type} (v : α) : HttpResponse α :=
  { ok := true, status := 200, statusText := "OK", body := Except.ok v }

/-- Witness for C1: each adapter, with credentials set and an unsuccessful
first response, returns no plans and exactly one error log. -/
theorem claim_C1_witness :
    failsWith (fetchDigitalOceanPlans envAll (resp401 ⟨[]⟩) (respOk ⟨[]⟩)) ∧
    failsWith (fetchHetznerPlans envAll (resp401 ⟨[]⟩) (respOk ⟨[]⟩)) ∧
    failsWith (fetchLinodePlans (resp401 ⟨[]⟩) (respOk ⟨[]⟩)) ∧
    failsWith (fetchVultrPlans envAll (resp401 ⟨[]⟩) (respOk ⟨[]⟩)) ∧
    failsWith (fetchUpCloudPlans envAll (resp401 ⟨[]⟩) (respOk ⟨[]⟩) (respOk ⟨[]⟩)) ∧
    failsWith (fetchScalewayPlans envAll (resp401 ⟨[]⟩)) :=
  ⟨claim_C1.1 envAll _ _ (by decide) (Or.inl (by decide)),
   claim_C1.2.1 envAll _ _ (by decide) (Or.inl (by decide)),
   claim_C1.2.2.1 _ _ (Or.inl (by decide)),
   claim_C1.2.2.2.1 envAll _ _ (by decide) (Or.inl (by decide)),
   claim_C1.2.2.2.2.1 envAll _ _ _ (by decide) (by decide) (Or.inl (by decide)),
   claim_C1.2.2.2.2.2 envAll _ (by decide) (Or.inl (by decide))⟩

/-! ### Output characterization, per adapter -/

theorem do_mem_inv (env : Env) (s : HttpResponse DOSizesResponse)
    (r : HttpResponse DORegionsResponse) (p : Plan)
    (hp : p ∈ (fetchDigitalOceanPlans env s r).1) :
    ∃ sd rd size, s.body = Except.ok sd ∧ r.body = Except.ok rd ∧
      (size ∈ sd.sizes.filter fun size => size.available && decide (512 ≤ size.memory)) ∧
      p = doPlanOf rd.regions size := by
  unfold fetchDigitalOceanPlans at hp
  by_cases hk : isFalsy env.DIGITALOCEAN_API_KEY = true
  · simp [hk] at hp
  · simp only [hk, if_false, Bool.not_eq_true] at hp
    rw [if_neg (by simp [hk])] at hp
    cases hb : fetchDigitalOceanPlansBody s r with
    | error e => rw [hb] at hp; simp at hp
    | ok plans =>
      rw [hb] at hp; simp only at hp
      unfold fetchDigitalOceanPlansBody at hb
      cases hso : s.ok with
      | false => rw [hso] at hb; simp [ethrow_eq, ebind_err] at hb
      | true =>
        cases hro : r.ok with
        | false => rw [hso, hro] at hb; simp [ethrow_eq, ebind_err] at hb
        | true =>
          rw [hso, hro] at hb
          cases hsb : s.body with
          | error e => simp [hsb, ebind_err, ebind_ok] at hb
          | ok sd =>
            cases hrb : r.body with
            | error e => simp [hsb, hrb, ebind_err, ebind_ok, emap_err] at hb
            | ok rd =>
              simp only [hsb, hrb, ebind_ok, emap_ok, Bool.not_true, Bool.or_self,
                Bool.false_eq_true, if_false, pure] at hb
              have hplans :
                  plans = (sd.sizes.filter fun size =>
                    size.available && decide (512 ≤ size.memory)).map (doPlanOf rd.regions) := by
                cases hb; rfl
              subst hplans
              obtain ⟨size, hmem, hpe⟩ := List.mem_map.mp hp
              exact ⟨sd, rd, size, rfl, rfl, hmem, hpe.symm⟩

theorem linode_mem_inv (s : HttpResponse LinodeTypesResponse)
    (r : HttpResponse LinodeRegionsResponse) (p : Plan)
    (hp : p ∈ (fetchLinodePlans s r).1) :
    ∃ td rd t, s.body = Except.ok td ∧ r.body = Except.ok rd ∧
      (t ∈ td.data.filter fun t => !(t.planClass == "gpu") && !(t.planClass == "accelerated")) ∧
      p = linodePlanOf rd.data t := by
  unfold fetchLinodePlans at hp
  cases hb : fetchLinodePlansBody s r with
  | error e => rw [hb] at hp; simp at hp
  | ok plans =>
    rw [hb] at hp; simp only at hp
    unfold fetchLinodePlansBody at hb
    cases hso : s.ok with
    | false => rw [hso] at hb; simp [ethrow_eq, ebind_err] at hb
    | true =>
      cases hro : r.ok with
      | false => rw [hso, hro] at hb; simp [ethrow_eq, ebind_err] at hb
      | true =>
        rw [hso, hro] at hb
        cases hsb : s.body with
        | error e => simp [hsb, ebind_err, ebind_ok] at hb
        | ok td =>
          cases hrb : r.body with
          | error e => simp [hsb, hrb, ebind_err, ebind_ok, emap_err] at hb
          | ok rd =>
            simp only [hsb, hrb, ebind_ok, emap_ok, Bool.not_true, Bool.or_self,
              Bool.false_eq_true, if_false, pure] at hb
            have hplans :
                plans = (td.data.filter fun t =>
                  !(t.planClass == "gpu") && !(t.planClass == "accelerated")).map
                    (linodePlanOf rd.data) := by
              cases hb; rfl
            subst hplans
            obtain ⟨t, hmem, hpe⟩ := List.mem_map.mp hp
            exact ⟨td, rd, t, rfl, rfl, hmem, hpe.symm⟩

theorem vultr_mem_inv (env : Env) (s : HttpResponse VultrPlansResponse)
    (r : HttpResponse VultrRegionsResponse) (p : Plan)
    (hp : p ∈ (fetchVultrPlans env s r).1) :
    ∃ pd rd plan, s.body = Except.ok pd ∧ r.body = Except.ok rd ∧
      (plan ∈ pd.plans.filter fun plan => ["vc2", "vhf", "vhp", "vdc"].contains plan.type) ∧
      p = vultrPlanOf rd.regions plan := by
  unfold fetchVultrPlans at hp
  by_cases hk : isFalsy env.VULTR_API_KEY = true
  · simp [hk] at hp
  · rw [if_neg (by simp [hk])] at hp
    cases hb : fetchVultrPlansBody s r with
    | error e => rw [hb] at hp; simp at hp
    | ok plans =>
      rw [hb] at hp; simp only at hp
      unfold fetchVultrPlansBody at hb
      cases hso : s.ok with
      | false => rw [hso] at hb; simp [ethrow_eq, ebind_err] at hb
      | true =>
        cases hro : r.ok with
        | false => rw [hso, hro] at hb; simp [ethrow_eq, ebind_err] at hb
        | true =>
          rw [hso, hro] at hb
          cases hsb : s.body with
          | error e => simp [hsb, ebind_err, ebind_ok] at hb
          | ok pd =>
            cases hrb : r.body with
            | error e => simp [hsb, hrb, ebind_err, ebind_ok, emap_err] at hb
            | ok rd =>
              simp only [hsb, hrb, ebind_ok, emap_ok, Bool.not_true, Bool.or_self,
                Bool.false_eq_true, if_false, pure] at hb
              have hplans :
                  plans = (pd.plans.filter fun plan =>
                    ["vc2", "vhf", "vhp", "vdc"].contains plan.type).map
                      (vultrPlanOf rd.regions) := by
                cases hb; rfl
              subst hplans
              obtain ⟨plan, hmem, hpe⟩ := List.mem_map.mp hp
              exact ⟨pd, rd, plan, rfl, rfl, hmem, hpe.symm⟩

theorem upcloud_mem_inv (env : Env) (pres : HttpResponse UpCloudPlansResponse)
    (prres : HttpResponse UpCloudPricing) (zres : HttpResponse UpCloudZonesResponse) (p : Plan)
    (hp : p ∈ (fetchUpCloudPlans env pres prres zres).1) :
    ∃ pd prd zd plan, pres.body = Except.ok pd ∧ prres.body = Except.ok prd ∧
      zres.body = Except.ok zd ∧ plan ∈ pd.plans ∧
      p = upcloudPlanOf prd (zd.zones.map UpCloudZone.description) plan := by
  unfold fetchUpCloudPlans at hp
  by_cases hk : (isFalsy env.UPCLOUD_USERNAME || isFalsy env.UPCLOUD_PASSWORD) = true
  · simp [hk] at hp
  · rw [if_neg (by simp_all)] at hp
    cases hb : fetchUpCloudPlansBody pres prres zres with
    | error e => rw [hb] at hp; simp at hp
    | ok plans =>
      rw [hb] at hp; simp only at hp
      unfold fetchUpCloudPlansBody at hb
      cases hpo : pres.ok with
      | false => rw [hpo] at hb; simp [ethrow_eq, ebind_err] at hb
      | true =>
        cases hpro : prres.ok with
        | false => rw [hpo, hpro] at hb; simp [ethrow_eq, ebind_err] at hb
        | true =>
          cases hzo : zres.ok with
          | false => rw [hpo, hpro, hzo] at hb; simp [ethrow_eq, ebind_err] at hb
          | true =>
            rw [hpo, hpro, hzo] at hb
            cases hpb : pres.body with
            | error e => simp [hpb, ebind_err, ebind_ok] at hb
            | ok pd =>
              cases hprb : prres.body with
              | error e => simp [hpb, hprb, ebind_err, ebind_ok] at hb
              | ok prd =>
                cases hzb : zres.body with
                | error e => simp [hpb, hprb, hzb, ebind_err, ebind_ok, emap_err] at hb
                | ok zd =>
                  simp only [hpb, hprb, hzb, ebind_ok, emap_ok, Bool.not_true,
                    Bool.false_eq_true, if_false, pure] at hb
                  have hplans :
                      plans = pd.plans.map
                        (upcloudPlanOf prd (zd.zones.map UpCloudZone.description)) := by
                    cases hb; rfl
                  subst hplans
                  obtain ⟨plan, hmem, hpe⟩ := List.mem_map.mp hp
                  exact ⟨pd, prd, zd, plan, rfl, rfl, rfl, hmem, hpe.symm⟩

theorem scaleway_mem_inv (env : Env) (s : HttpResponse ScalewayServersResponse) (p : Plan)
    (hp : p ∈ (fetchScalewayPlans env s).1) :
    ∃ sd entry, s.body = Except.ok sd ∧
      (entry ∈ sd.servers.filter fun entry => scalewayKeep entry.snd) ∧
      p = scalewayPlanOf entry := by
  unfold fetchScalewayPlans at hp
  by_cases hk : isFalsy env.SCALEWAY_API_KEY = true
  · simp [hk] at hp
  · rw [if_neg (by simp [hk])] at hp
    cases hb : fetchScalewayPlansBody s with
    | error e => rw [hb] at hp; simp at hp
    | ok plans =>
      rw [hb] at hp; simp only at hp
      unfold fetchScalewayPlansBody at hb
      cases hso : s.ok with
      | false => rw [hso] at hb; simp [ethrow_eq, ebind_err] at hb
      | true =>
        rw [hso] at hb
        cases hsb : s.body with
        | error e => simp [hsb, ebind_err, ebind_ok, emap_err] at hb
        | ok sd =>
          simp only [hsb, ebind_ok, emap_ok, Bool.not_true, Bool.false_eq_true,
            if_false, pure] at hb
          have hplans :
              plans = (sd.servers.filter fun entry => scalewayKeep entry.snd).map
                scalewayPlanOf := by
            cases hb; rfl
          subst hplans
          obtain ⟨entry, hmem, hpe⟩ := List.mem_map.mp hp
          exact ⟨sd, entry, rfl, hmem, hpe.symm⟩

theorem hetznerTransformAll_mem (locs : List HetznerLocation) (l : List HetznerServerType)
    (plans : List Plan) (h : hetznerTransformAll locs l = Except.ok plans) (p : Plan)
    (hp : p ∈ plans) :
    ∃ st, st ∈ l ∧ ∃ c, cheapestHetznerPrice st.prices = some c ∧
      p = hetznerPlanOf locs st c := by
  induction l generalizing plans with
  | nil =>
    unfold hetznerTransformAll at h
    cases h; simp at hp
  | cons st rest ih =>
    unfold hetznerTransformAll at h
    cases hc : cheapestHetznerPrice st.prices with
    | none => rw [hc] at h; exact absurd h (by simp)
    | some c =>
      rw [hc] at h
      cases hrest : hetznerTransformAll locs rest with
      | error e => rw [hrest] at h; exact absurd h (by simp)
      | ok restPlans =>
        rw [hrest] at h
        have hplans : plans = hetznerPlanOf locs st c :: restPlans := by cases h; rfl
        subst hplans
        rcases List.mem_cons.mp hp with hpe | hpm
        · exact ⟨st, List.mem_cons_self st rest, c, hc, hpe⟩
        · obtain ⟨st', hmem, c', hc', hpe⟩ := ih restPlans hrest hpm
          exact ⟨st', List.mem_cons_of_mem st hmem, c', hc', hpe⟩

theorem hetzner_mem_inv (env : Env) (s : HttpResponse HetznerServerTypesResponse)
    (r : HttpResponse HetznerLocationsResponse) (p : Plan)
    (hp : p ∈ (fetchHetznerPlans env s r).1) :
    ∃ sd ld st c, s.body = Except.ok sd ∧ r.body = Except.ok ld ∧
      st ∈ hetznerFiltered env sd.server_types ∧ cheapestHetznerPrice st.prices = some c ∧
      p = hetznerPlanOf ld.locations st c := by
  unfold fetchHetznerPlans at hp
  by_cases hk : isFalsy env.HETZNER_API_KEY = true
  · simp [hk] at hp
  · rw [if_neg (by simp [hk])] at hp
    cases hb : fetchHetznerPlansBody env s r with
    | error e => rw [hb] at hp; simp at hp
    | ok plans =>
      rw [hb] at hp; simp only at hp
      unfold fetchHetznerPlansBody at hb
      cases hso : s.ok with
      | false => rw [hso] at hb; simp [ethrow_eq, ebind_err] at hb
      | true =>
        cases hro : r.ok with
        | false => rw [hso, hro] at hb; simp [ethrow_eq, ebind_err] at hb
        | true =>
          rw [hso, hro] at hb
          cases hsb : s.body with
          | error e => simp [hsb, ebind_err, ebind_ok] at hb
          | ok sd =>
            cases hrb : r.body with
            | error e => simp [hsb, hrb, ebind_err, ebind_ok] at hb
            | ok ld =>
              simp only [hsb, hrb, ebind_ok, Bool.not_true, Bool.or_self,
                Bool.false_eq_true, if_false] at hb
              obtain ⟨st, hmem, c, hc, hpe⟩ :=
                hetznerTransformAll_mem ld.locations (hetznerFiltered env sd.server_types)
                  plans hb p hp
              exact ⟨sd, ld, st, c, rfl, rfl, hmem, hc, hpe⟩

/-! ## Claim C2 -/

/-- The memory-threshold conversion rule of the spec: unit is GB exactly
when the raw MB value is at least 1024, the amount is `raw / 1024` in GB
and the raw value unchanged in MB. -/
def ramThresholdLaw (p : Plan) (raw : ℚ) : Prop :=
  (p.specs.ram.unit = "GB" ↔ 1024 ≤ raw) ∧
  (p.specs.ram.unit = "MB" ↔ ¬1024 ≤ raw) ∧
  (1024 ≤ raw → p.specs.ram.amount = raw / 1024) ∧
  (¬1024 ≤ raw → p.specs.ram.amount = raw)

/-- A Vultr vc2 plan whose raw RAM is 512 MB (such plans pass the Vultr
adapter's type filter unchanged). -/
def vultrPlan512 : VultrPlan :=
  { id := "vc2-1c-0.5gb", vcpu_count := 1, ram := 512, disk := 10, bandwidth := 512,
    monthly_cost := 5 / 2, type := "vc2", locations := ["ewr"] }

/-- Environment for the Vultr counterexample run. -/
def envVultrOnly : Env := { VULTR_API_KEY := some "vu-key" }

/-- Counterexample to C2: on a successful Vultr run whose plan has a raw
memory of 512 MB, the emitted record reports unit "GB" although the raw MB
value is below 1024, so the claimed "GB iff raw ≥ 1024 else MB unchanged"
rule is violated. -/
theorem claim_C2_counterexample :
    ((fetchVultrPlans envVultrOnly (respOk ⟨[vultrPlan512]⟩)
        (respOk ⟨[{ id := "ewr", city := "New Jersey", country := "US" }]⟩)).1.map
      fun p => p.specs.ram.unit) = ["GB"] ∧
    vultrPlan512.ram = 512 ∧ ¬1024 ≤ vultrPlan512.ram := by
  refine ⟨?_, by decide, by decide⟩
  decide

/-- Claim C2, amended: the adapters whose raw memory is an MB count split
into two families. The DigitalOcean and Linode adapters follow the
threshold rule of the spec (unit GB iff raw ≥ 1024, amount `raw / 1024` in
GB, raw unchanged in MB, unit always MB or GB); the Vultr and UpCloud
adapters instead always report unit GB with amount `raw / 1024`, whatever
the raw MB value. -/
theorem claim_C2 :
    (∀ (regions : List DORegion) (size : DOSize),
      ramThresholdLaw (doPlanOf regions size) size.memory) ∧
    (∀ (regions : List LinodeRegion) (t : LinodeType),
      ramThresholdLaw (linodePlanOf regions t) t.memory) ∧
    (∀ (regions : List VultrRegion) (plan : VultrPlan),
      (vultrPlanOf regions plan).specs.ram.unit = "GB" ∧
      (vultrPlanOf regions plan).specs.ram.amount = plan.ram / 1024) ∧
    (∀ (pricing : UpCloudPricing) (zones : List String) (plan : UpCloudPlan),
      (upcloudPlanOf pricing zones plan).specs.ram.unit = "GB" ∧
      (upcloudPlanOf pricing zones plan).specs.ram.amount = plan.memory_amount / 1024) := by
  refine ⟨?_, ?_, ?_, ?_⟩
  · intro regions size
    by_cases h : 1024 ≤ size.memory <;>
      simp [ramThresholdLaw, doPlanOf, h]
  · intro regions t
    by_cases h : 1024 ≤ t.memory <;>
      simp [ramThresholdLaw, linodePlanOf, h]
  · intro regions plan
    exact ⟨rfl, rfl⟩
  · intro pricing zones plan
    exact ⟨rfl, rfl⟩

/-- A DigitalOcean size with raw memory 2048 MB, used to instantiate the
threshold rule. -/
def doSize2048 : DOSize :=
  { slug := "s-1vcpu-2gb", available := true, memory := 2048, vcpus := 1, disk := 50,
    transfer := 2, price_monthly := 12, regions := ["nyc1"] }

/-- Witness for C2: the DigitalOcean adapter maps a 2048 MB size to unit GB
with amount `2048 / 1024`, and the Vultr adapter reports GB for the 512 MB
plan. -/
theorem claim_C2_witness :
    (doPlanOf [] doSize2048).specs.ram.unit = "GB" ∧
    (doPlanOf [] doSize2048).specs.ram.amount = doSize2048.memory / 1024 ∧
    (vultrPlanOf [] vultrPlan512).specs.ram.unit = "GB" :=
  ⟨(claim_C2.1 [] doSize2048).1.mpr (by decide),
   (claim_C2.1 [] doSize2048).2.2.1 (by decide),
   (claim_C2.2.2.1 [] vultrPlan512).1⟩

/-! ## Claim C3 -/

/-- A plain Hetzner cx11-like server type with a single tiered price. -/
def hetznerStCx11 : HetznerServerType :=
  { name := "cx11", cores := 1, memory := 2, disk := 20, deprecated := false,
    architecture := "x86", cpu_type := "shared", storage_type := "local",
    prices := [{ price_monthly_gross := "4.15" }] }

/-- Eleven identical Hetzner locations. -/
def elevenLocations : List HetznerLocation :=
  List.replicate 11 { city := "Falkenstein", country := "Germany" }

/-- Counterexample to C3: the Hetzner adapter does not truncate locations,
so a successful run against a provider response with 11 locations emits a
plan whose locations array has length 11 > 10. -/
theorem claim_C3_counterexample :
    ((fetchHetznerPlans envAll (respOk ⟨[hetznerStCx11]⟩) (respOk ⟨elevenLocations⟩)).1.map
      fun p => p.locations.length) = [11] ∧ ¬(11 ≤ 10) := by
  exact ⟨by decide, by decide⟩

/-- Claim C3, amended: the DigitalOcean, Linode, Vultr, UpCloud and
Scaleway adapters cap the locations of every emitted plan at 10 entries;
the Hetzner adapter instead emits one formatted location string per entry
of the provider's locations response, with no cap. -/
theorem claim_C3 :
    (∀ (env : Env) (s : HttpResponse DOSizesResponse) (r : HttpResponse DORegionsResponse)
      (p : Plan), p ∈ (fetchDigitalOceanPlans env s r).1 → p.locations.length ≤ 10) ∧
    (∀ (s : HttpResponse LinodeTypesResponse) (r : HttpResponse LinodeRegionsResponse)
      (p : Plan), p ∈ (fetchLinodePlans s r).1 → p.locations.length ≤ 10) ∧
    (∀ (env : Env) (s : HttpResponse VultrPlansResponse) (r : HttpResponse VultrRegionsResponse)
      (p : Plan), p ∈ (fetchVultrPlans env s r).1 → p.locations.length ≤ 10) ∧
    (∀ (env : Env) (pres : HttpResponse UpCloudPlansResponse)
      (prres : HttpResponse UpCloudPricing) (zres : HttpResponse UpCloudZonesResponse)
      (p : Plan), p ∈ (fetchUpCloudPlans env pres prres zres).1 → p.locations.length ≤ 10) ∧
    (∀ (env : Env) (s : HttpResponse ScalewayServersResponse) (p : Plan),
      p ∈ (fetchScalewayPlans env s).1 → p.locations.length ≤ 10) ∧
    (∀ (env : Env) (s : HttpResponse HetznerServerTypesResponse)
      (r : HttpResponse HetznerLocationsResponse) (ld : HetznerLocationsResponse) (p : Plan),
      r.body = Except.ok ld → p ∈ (fetchHetznerPlans env s r).1 →
      p.locations.length = ld.locations.length) := by
  refine ⟨?_, ?_, ?_, ?_, ?_, ?_⟩
  · intro env s r p hp
    obtain ⟨sd, rd, size, _, _, _, hpe⟩ := do_mem_inv env s r p hp
    subst hpe
    simp only [doPlanOf]
    exact List.length_take_le _ _
  · intro s r p hp
    obtain ⟨td, rd, t, _, _, _, hpe⟩ := linode_mem_inv s r p hp
    subst hpe
    simp only [linodePlanOf]
    exact List.length_take_le _ _
  · intro env s r p hp
    obtain ⟨pd, rd, plan, _, _, _, hpe⟩ := vultr_mem_inv env s r p hp
    subst hpe
    simp only [vultrPlanOf, List.length_map]
    exact List.length_take_le _ _
  · intro env pres prres zres p hp
    obtain ⟨pd, prd, zd, plan, _, _, _, _, hpe⟩ := upcloud_mem_inv env pres prres zres p hp
    subst hpe
    simp only [upcloudPlanOf]
    exact List.length_take_le _ _
  · intro env s p hp
    obtain ⟨sd, entry, _, _, hpe⟩ := scaleway_mem_inv env s p hp
    subst hpe
    simp only [scalewayPlanOf]
    decide
  · intro env s r ld p hld hp
    obtain ⟨sd, ld', st, c, _, hrb, _, _, hpe⟩ := hetzner_mem_inv env s r p hp
    rw [hld] at hrb
    cases hrb
    subst hpe
    simp only [hetznerPlanOf, List.length_map]

/-- Witness for C3: the Vultr location cap and the Hetzner non-cap on the
concrete runs used above. -/
theorem claim_C3_witness :
    (vultrPlanOf [{ id := "ewr", city := "New Jersey", country := "US" }]
      vultrPlan512).locations.length ≤ 10 ∧
    (hetznerPlanOf elevenLocations hetznerStCx11
      { price_monthly_gross := "4.15" }).locations.length = 11 := by
  constructor
  · exact claim_C3.2.2.1 envVultrOnly (respOk ⟨[vultrPlan512]⟩)
      (respOk ⟨[{ id := "ewr", city := "New Jersey", country := "US" }]⟩) _
      (List.mem_cons_self _ _)
  · have h := claim_C3.2.2.2.2.2 envAll (respOk ⟨[hetznerStCx11]⟩) (respOk ⟨elevenLocations⟩)
      ⟨elevenLocations⟩ _ rfl (List.mem_cons_self _ _)
    exact h.trans (by decide)

/-! ## Claim C5 -/

theorem parse_isSome_eq (pr : HetznerPrice)
    (h : (parseDecimal pr.price_monthly_gross).isSome = true) :
    parseDecimal pr.price_monthly_gross = some (parsedValD pr) := by
  cases hp : parseDecimal pr.price_monthly_gross with
  | none => rw [hp] at h; simp at h
  | some v => simp [parsedValD, hp]

theorem ltOptQ_some_some (a b : ℚ) : ltOptQ (some a) (some b) = decide (a < b) := rfl

theorem findq_cons_pos {α : Type} (p : α → Bool) (a : α) (l : List α) (h : p a = true) :
    List.find? p (a :: l) = some a := by simp [List.find?_cons, h]

theorem findq_cons_neg {α : Type} (p : α → Bool) (a : α) (l : List α) (h : p a = false) :
    List.find? p (a :: l) = List.find? p l := by simp [List.find?_cons, h]

/-- Specification of the `prices.reduce` fold of the Hetzner adapter, for
price lists whose entries all parse: the selected element is a member of
the list, its parsed value is minimal, and it is the first element of the
list attaining that value (ties keep the earlier tier). -/
theorem cheapest_spec (ps : List HetznerPrice) (p : HetznerPrice)
    (hparse : ∀ pr ∈ p :: ps, (parseDecimal pr.price_monthly_gross).isSome = true) :
    ∃ c, cheapestHetznerPrice (p :: ps) = some c ∧ c ∈ p :: ps ∧
      (∀ x ∈ p :: ps, parsedValD c ≤ parsedValD x) ∧
      (p :: ps).find? (fun x => parsedValD x == parsedValD c) = some c := by
  induction ps generalizing p with
  | nil =>
    refine ⟨p, rfl, List.mem_singleton.mpr rfl, ?_, ?_⟩
    · intro x hx
      rw [List.mem_singleton.mp hx]
    · simp [List.find?]
  | cons q rest ih =>
    have hq : parseDecimal q.price_monthly_gross = some (parsedValD q) :=
      parse_isSome_eq q (hparse q (by simp))
    have hp : parseDecimal p.price_monthly_gross = some (parsedValD p) :=
      parse_isSome_eq p (hparse p (by simp))
    have hstep : cheapestHetznerPrice (p :: q :: rest) =
        cheapestHetznerPrice
          ((if ltOptQ (parseDecimal q.price_monthly_gross)
              (parseDecimal p.price_monthly_gross) then q else p) :: rest) := by
      simp only [cheapestHetznerPrice, List.foldl_cons]
    by_cases hlt : parsedValD q < parsedValD p
    · -- the second tier strictly undercuts the first: the fold continues from q
      have hcond : ltOptQ (parseDecimal q.price_monthly_gross)
          (parseDecimal p.price_monthly_gross) = true := by
        rw [hq, hp, ltOptQ_some_some]; exact decide_eq_true hlt
      rw [hcond] at hstep
      simp only [if_true] at hstep
      obtain ⟨c, hc, hmem, hmin, hfind⟩ := ih q (by
        intro pr hpr
        exact hparse pr (List.mem_cons_of_mem p hpr))
      refine ⟨c, hstep.trans hc, List.mem_cons_of_mem p hmem, ?_, ?_⟩
      · intro x hx
        rcases List.mem_cons.mp hx with hxp | hxm
        · subst hxp
          exact le_of_lt (lt_of_le_of_lt (hmin q (by simp)) hlt)
        · exact hmin x hxm
      · have hne : (parsedValD p == parsedValD c) = false := by
          have hcp : parsedValD c < parsedValD p := lt_of_le_of_lt (hmin q (by simp)) hlt
          rw [beq_eq_false_iff_ne]
          intro he
          exact absurd (he ▸ hcp) (lt_irrefl _)
        rw [findq_cons_neg _ p (q :: rest) hne, hfind]
    · -- the first tier stays: the fold continues from p
      have hcond : ltOptQ (parseDecimal q.price_monthly_gross)
          (parseDecimal p.price_monthly_gross) = false := by
        rw [hq, hp, ltOptQ_some_some]; exact decide_eq_false hlt
      rw [hcond] at hstep
      rw [if_neg (by simp)] at hstep
      have hple : parsedValD p ≤ parsedValD q := le_of_not_lt hlt
      obtain ⟨c, hc, hmem, hmin, hfind⟩ := ih p (by
        intro pr hpr
        rcases List.mem_cons.mp hpr with he | hm
        · exact hparse pr (he ▸ List.mem_cons_self p (q :: rest))
        · exact hparse pr (List.mem_cons_of_mem p (List.mem_cons_of_mem q hm)))
      refine ⟨c, hstep.trans hc, ?_, ?_, ?_⟩
      · rcases List.mem_cons.mp hmem with hcp | hcm
        · exact hcp ▸ List.mem_cons_self p (q :: rest)
        · exact List.mem_cons_of_mem p (List.mem_cons_of_mem q hcm)
      · intro x hx
        rcases List.mem_cons.mp hx with hxp | hxm
        · exact hxp ▸ hmin p (by simp)
        · rcases List.mem_cons.mp hxm with hxq | hxr
          · exact hxq ▸ le_trans (hmin p (by simp)) hple
          · exact hmin x (List.mem_cons_of_mem p hxr)
      · by_cases hpc : (parsedValD p == parsedValD c) = true
        · rw [findq_cons_pos _ p (q :: rest) hpc]
          rw [findq_cons_pos _ p rest hpc] at hfind
          exact hfind
        · have hpc' : (parsedValD p == parsedValD c) = false := by
            cases h : (parsedValD p == parsedValD c)
            · rfl
            · exact absurd h hpc
          rw [findq_cons_neg _ p (q :: rest) hpc']
          rw [findq_cons_neg _ p rest hpc'] at hfind
          have hqc : (parsedValD q == parsedValD c) = false := by
            rw [beq_eq_false_iff_ne] at hpc' ⊢
            intro he
            have hcple : parsedValD c ≤ parsedValD p := hmin p (by simp)
            have hplec : parsedValD p ≤ parsedValD c := he ▸ hple
            exact hpc' (le_antisymm hplec hcple)
          rw [findq_cons_neg _ q rest hqc]
          exact hfind

/-- A Hetzner server type with the three tiered prices of the spec's
scenario. -/
def hetznerStTiered : HetznerServerType :=
  { name := "cx22", cores := 2, memory := 4, disk := 40, deprecated := false,
    architecture := "x86", cpu_type := "shared", storage_type := "local",
    prices := [{ price_monthly_gross := "5.00" }, { price_monthly_gross := "4.15" },
               { price_monthly_gross := "4.50" }] }

/-- Claim C5: for every Hetzner server type whose tiered gross monthly
price strings all parse, the emitted `price.monthly` is the minimum parsed
value of the tiers, and the tier the fold selects is the first one in the
provider's listed order attaining that minimum; in particular the run with
tiers "5.00", "4.15", "4.50" emits `price.monthly = 4.15`. -/
theorem claim_C5 :
    (∀ (locs : List HetznerLocation) (st : HetznerServerType) (c : HetznerPrice),
      (∀ pr ∈ st.prices, (parseDecimal pr.price_monthly_gross).isSome = true) →
      cheapestHetznerPrice st.prices = some c →
      ((hetznerPlanOf locs st c).price.monthly ∈ st.prices.map parsedValD ∧
       (∀ x ∈ st.prices.map parsedValD, (hetznerPlanOf locs st c).price.monthly ≤ x) ∧
       st.prices.find? (fun x => parsedValD x == parsedValD c) = some c)) ∧
    ((fetchHetznerPlans envAll (respOk ⟨[hetznerStTiered]⟩)
        (respOk ⟨[{ city := "Falkenstein", country := "Germany" }]⟩)).1.map
      fun p => p.price.monthly) = [(4.15 : ℚ)] := by
  constructor
  · intro locs st c hparse hc
    have hmonthly : (hetznerPlanOf locs st c).price.monthly = parsedValD c := rfl
    cases hps : st.prices with
    | nil => rw [hps] at hc; exact absurd hc (by simp [cheapestHetznerPrice])
    | cons p ps =>
      rw [hps] at hc hparse
      obtain ⟨c', hc', hmem, hmin, hfind⟩ := cheapest_spec ps p hparse
      rw [hc] at hc'
      cases hc'
      refine ⟨?_, ?_, hfind⟩
      · rw [hmonthly]
        exact List.mem_map.mpr ⟨c, hmem, rfl⟩
      · intro x hx
        obtain ⟨pr, hpr, hpe⟩ := List.mem_map.mp hx
        rw [hmonthly, ← hpe]
        exact hmin pr hpr
  · with_unfolding_all decide

/-- Witness for C5: on the three-tier scenario list, the fold picks the
"4.15" tier, which is minimal among the parsed tiers and the first tier
attaining that value. -/
theorem claim_C5_witness :
    (hetznerPlanOf [] hetznerStTiered { price_monthly_gross := "4.15" }).price.monthly ∈
      hetznerStTiered.prices.map parsedValD ∧
    hetznerStTiered.prices.find?
      (fun x => parsedValD x == parsedValD { price_monthly_gross := "4.15" }) =
      some { price_monthly_gross := "4.15" } := by
  have h := claim_C5.1 [] hetznerStTiered { price_monthly_gross := "4.15" }
    (by with_unfolding_all decide) (by with_unfolding_all decide)
  exact ⟨h.1, h.2.2⟩

/-! ## Claim C4 -/

theorem length_append_pos_left (a b : String) (h : 0 < a.length) : 0 < (a ++ b).length := by
  rw [String.length_append]; omega

theorem length_append_pos_right (a b : String) (h : 0 < b.length) : 0 < (a ++ b).length := by
  rw [String.length_append]; omega

theorem list_append_pos_left {α : Type} (a b : List α) (h : 0 < a.length) :
    0 < (a ++ b).length := by
  rw [List.length_append]; omega

theorem list_append_pos_right {α : Type} (a b : List α) (h : 0 < b.length) :
    0 < (a ++ b).length := by
  rw [List.length_append]; omega

theorem str_length_pos_of_not_empty (s : String) (h : s.isEmpty = false) : 0 < s.length := by
  cases s with
  | mk data =>
    cases data with
    | nil => exact absurd h (by decide)
    | cons c cs => simp [String.length]

theorem orElseStr_pos (o : Option String) (fb : String) (h : 0 < fb.length) :
    0 < (orElseStr o fb).length := by
  cases o with
  | none => exact h
  | some str =>
    simp only [orElseStr]
    by_cases hs : str.isEmpty
    · simp [hs, h]
    · have hs' : str.isEmpty = false := by
        cases he : str.isEmpty
        · rfl
        · exact absurd he hs
      simp [hs']
      exact str_length_pos_of_not_empty str hs'

theorem jsToUpper_length (s : String) : (jsToUpper s).length = s.length := by
  cases s with
  | mk data => simp [jsToUpper, String.length]

theorem jsToLower_length (s : String) : (jsToLower s).length = s.length := by
  cases s with
  | mk data => simp [jsToLower, String.length]

theorem take_length_pos {α : Type} (n : ℕ) (l : List α) (hn : 0 < n) (hl : 0 < l.length) :
    0 < (l.take n).length := by
  rw [List.length_take]
  exact lt_min_iff.mpr ⟨hn, hl⟩

theorem jsRound_ge (x : ℚ) (n : ℤ) (h : (n : ℚ) ≤ x + 1 / 2) : n ≤ jsRound x :=
  Int.le_floor.mpr h

theorem jsRound_div100_pos (x : ℚ) (h : (1 : ℚ) ≤ x) : 0 < (jsRound x : ℚ) / 100 := by
  have h1 : (1 : ℤ) ≤ jsRound x := jsRound_ge x 1 (by push_cast; linarith)
  have h2 : (0 : ℚ) < (jsRound x : ℚ) := by exact_mod_cast lt_of_lt_of_le Int.zero_lt_one h1
  exact div_pos h2 (by norm_num)

theorem int_rat_one_le (q : ℚ) (hden : q.den = 1) (hpos : 0 < q) : 1 ≤ q := by
  have hnum : 0 < q.num := Rat.num_pos.mpr hpos
  have h1 : (1 : ℤ) ≤ q.num := hnum
  have hq : (q.num : ℚ) = q := by
    rw [← Rat.den_eq_one_iff]
    exact hden
  calc (1 : ℚ) ≤ (q.num : ℚ) := by exact_mod_cast h1
    _ = q := hq

/-- An UpCloud plan used in concrete runs. -/
def upcloudPlan2GB : UpCloudPlan :=
  { core_number := 1, memory_amount := 2048, name := "1xCPU-2GB",
    public_traffic_out := 2048, storage_size := 50, storage_tier := "maxiops" }

/-- An UpCloud pricing response whose first zone carries no
`server_plan_1xCPU-2GB` entry. -/
def upcloudPricingMissing : UpCloudPricing :=
  { zoneList := [{ zone := "us-nyc1", entries := [("server_plan_other", "0.0137")] }] }

/-- The UpCloud zones response used in concrete runs. -/
def upcloudZonesNY : UpCloudZonesResponse :=
  { zones := [{ id := "us-nyc1", description := "New York, USA" }] }

/-- Counterexample to C4: on a successful UpCloud run whose pricing
response lacks the plan's `server_plan_...` entry, the adapter emits a
record with `price.monthly = 0`, and that candidate fails the
`vpsSchema` constraints (`monthly` must be positive), so not every emitted
candidate validates with zero errors. -/
theorem claim_C4_counterexample :
    ((fetchUpCloudPlans envAll (respOk ⟨[upcloudPlan2GB]⟩) (respOk upcloudPricingMissing)
        (respOk upcloudZonesNY)).1.map
      fun p => (p.price.monthly, decide (ValidPlan p))) = [((0 : ℚ), false)] := by
  with_unfolding_all decide

/-- Schema validity of a DigitalOcean candidate, provided the raw size has
a positive monthly price, integral positive vCPUs, memory within the
accepted filter range, positive disk, non-negative transfer, and at least
one available region matching the size. -/
theorem do_valid (regions : List DORegion) (size : DOSize)
    (hpm : 0 < size.price_monthly) (hvd : size.vcpus.den = 1) (hvp : 0 < size.vcpus)
    (hmem : 512 ≤ size.memory) (hdisk : 0 < size.disk) (htr : 0 ≤ size.transfer)
    (hreg : 0 < ((regions.filter fun region =>
      region.available && size.regions.contains region.slug).length)) :
    ValidPlan (doPlanOf regions size) := by
  have hmem0 : 0 < size.memory := lt_of_lt_of_le (by norm_num) hmem
  simp only [ValidPlan, doPlanOf]
  refine ⟨?_, ?_, ?_, ?_, ?_, ?_, ?_, ?_, ?_, ?_, ?_, ?_, ?_, ?_, ?_, ?_, ?_, ?_, ?_, ?_,
    ?_, ?_⟩
  · exact length_append_pos_left _ _ (by decide)
  · decide
  · exact orElseStr_pos _ _ (length_append_pos_right _ _ (by decide))
  · exact hpm
  · decide
  · decide
  · exact hvd
  · exact hvp
  · decide
  · by_cases h : 1024 ≤ size.memory
    · simp only [h, if_true]
      exact div_pos hmem0 (by norm_num)
    · simp only [h, if_false]
      exact hmem0
  · by_cases h : 1024 ≤ size.memory <;> simp [h]
  · exact hdisk
  · decide
  · decide
  · exact decide_eq_true htr
  · decide
  · decide
  · exact take_length_pos _ _ (by norm_num) (by simpa using hreg)
  · norm_num
  · norm_num
  · decide
  · decide

theorem getClassFeatures_pos (c : String) : 0 < (getClassFeatures c).length := by
  unfold getClassFeatures
  repeat' split
  all_goals decide

/-- Schema validity of a Hetzner candidate, provided every tiered price
parses to a positive value, the server type has a positive name, integral
positive cores, positive memory and disk, and the locations response is
non-empty. -/
theorem hetzner_valid (locs : List HetznerLocation) (st : HetznerServerType) (c : HetznerPrice)
    (hc : cheapestHetznerPrice st.prices = some c)
    (hpos : ∀ pr ∈ st.prices, ∃ v, parseDecimal pr.price_monthly_gross = some v ∧ 0 < v)
    (hname : 0 < st.name.length) (hcd : st.cores.den = 1) (hcp : 0 < st.cores)
    (hmem : 0 < st.memory) (hdisk : 0 < st.disk) (hloc : 0 < locs.length) :
    ValidPlan (hetznerPlanOf locs st c) := by
  have hmonthly : 0 < parsedValD c := by
    have hsome : ∀ pr ∈ st.prices, (parseDecimal pr.price_monthly_gross).isSome = true := by
      intro pr hpr
      obtain ⟨v, hv, _⟩ := hpos pr hpr
      rw [hv]; rfl
    cases hps : st.prices with
    | nil => rw [hps] at hc; exact absurd hc (by simp [cheapestHetznerPrice])
    | cons p ps =>
      rw [hps] at hc hsome hpos
      obtain ⟨c', hc', hmem', _, _⟩ := cheapest_spec ps p hsome
      rw [hc] at hc'
      cases hc'
      obtain ⟨v, hv, hvpos⟩ := hpos c hmem'
      rw [parsedValD, hv]
      exact hvpos
  simp only [ValidPlan, hetznerPlanOf]
  refine ⟨?_, ?_, ?_, ?_, ?_, ?_, ?_, ?_, ?_, ?_, ?_, ?_, ?_, ?_, ?_, ?_, ?_, ?_, ?_, ?_,
    ?_, ?_⟩
  · exact length_append_pos_left _ _ (by decide)
  · decide
  · exact hname
  · exact hmonthly
  · decide
  · decide
  · exact hcd
  · exact hcp
  · split <;> decide
  · exact hmem
  · decide
  · exact hdisk
  · decide
  · split <;> decide
  · decide
  · decide
  · decide
  · simpa using hloc
  · norm_num
  · norm_num
  · decide
  · decide

/-- Schema validity of a Linode candidate, provided the raw type has a
positive monthly price, integral positive vCPUs, positive memory, disk of
at least 1024 MB (so the storage unit lands in the schema's GB/TB enum),
non-negative transfer, and at least one region with status ok. -/
theorem linode_valid (regions : List LinodeRegion) (t : LinodeType)
    (hpm : 0 < t.price_monthly) (hvd : t.vcpus.den = 1) (hvp : 0 < t.vcpus)
    (hmem : 0 < t.memory) (hdisk : 1024 ≤ t.disk) (htr : 0 ≤ t.transfer)
    (hreg : 0 < ((regions.filter fun region => region.status == "ok").length)) :
    ValidPlan (linodePlanOf regions t) := by
  have hdisk0 : 0 < t.disk := lt_of_lt_of_le (by norm_num) hdisk
  simp only [ValidPlan, linodePlanOf]
  refine ⟨?_, ?_, ?_, ?_, ?_, ?_, ?_, ?_, ?_, ?_, ?_, ?_, ?_, ?_, ?_, ?_, ?_, ?_, ?_, ?_,
    ?_, ?_⟩
  · exact length_append_pos_left _ _ (by decide)
  · decide
  · exact length_append_pos_left _ _ (length_append_pos_right _ _ (by decide))
  · exact hpm
  · decide
  · decide
  · exact hvd
  · exact hvp
  · split <;> decide
  · by_cases h : 1024 ≤ t.memory
    · simp only [h, if_true]
      exact div_pos hmem (by norm_num)
    · simp only [h, if_false]
      exact hmem
  · by_cases h : 1024 ≤ t.memory <;> simp [h]
  · rw [if_pos hdisk]
    exact div_pos hdisk0 (by norm_num)
  · rw [if_pos hdisk]
    decide
  · decide
  · by_cases h : 1024 ≤ t.transfer
    · simp only [h, if_true]
      exact decide_eq_true (div_nonneg htr (by norm_num))
    · simp only [h, if_false]
      exact decide_eq_true htr
  · by_cases h : 1024 ≤ t.transfer <;> simp [h]
  · exact getClassFeatures_pos _
  · exact take_length_pos _ _ (by norm_num) (by simpa using hreg)
  · norm_num
  · norm_num
  · decide
  · decide

/-- Schema validity of a Vultr candidate, provided the raw plan has a
positive monthly cost, integral positive vCPUs, positive RAM and disk,
non-negative bandwidth, a non-empty plan id and a non-empty locations
array. -/
theorem vultr_valid (regions : List VultrRegion) (plan : VultrPlan)
    (hpm : 0 < plan.monthly_cost) (hvd : plan.vcpu_count.den = 1) (hvp : 0 < plan.vcpu_count)
    (hram : 0 < plan.ram) (hdisk : 0 < plan.disk) (hbw : 0 ≤ plan.bandwidth)
    (hid : 0 < plan.id.length) (hloc : 0 < plan.locations.length) :
    ValidPlan (vultrPlanOf regions plan) := by
  simp only [ValidPlan, vultrPlanOf]
  refine ⟨?_, ?_, ?_, ?_, ?_, ?_, ?_, ?_, ?_, ?_, ?_, ?_, ?_, ?_, ?_, ?_, ?_, ?_, ?_, ?_,
    ?_, ?_⟩
  · exact length_append_pos_left _ _ (by decide)
  · decide
  · rw [jsToUpper_length]
    exact hid
  · exact hpm
  · decide
  · decide
  · exact hvd
  · exact hvp
  · split <;> decide
  · exact div_pos hram (by norm_num)
  · decide
  · exact hdisk
  · decide
  · split <;> decide
  · exact decide_eq_true (div_nonneg hbw (by norm_num))
  · decide
  · unfold vultrFeatures
    exact list_append_pos_right _ _ (by decide)
  · simp only [List.length_map]
    exact take_length_pos _ _ (by norm_num) hloc
  · norm_num
  · norm_num
  · decide
  · decide

/-- Schema validity of an UpCloud candidate, provided the pricing lookup
finds an hourly price of at least one cent, and the raw plan has integral
positive cores, positive memory and storage, non-negative traffic, a
non-empty name, and the zones response is non-empty. -/
theorem upcloud_valid (pricing : UpCloudPricing) (zones : List String) (plan : UpCloudPlan)
    (hpr : ∃ str v, upcloudPlanPricing pricing plan.name = some str ∧
      parseDecimal str = some v ∧ 1 / 100 ≤ v)
    (hcd : plan.core_number.den = 1) (hcp : 0 < plan.core_number)
    (hmem : 0 < plan.memory_amount) (hst : 0 < plan.storage_size)
    (htr : 0 ≤ plan.public_traffic_out) (hname : 0 < plan.name.length)
    (hz : 0 < zones.length) :
    ValidPlan (upcloudPlanOf pricing zones plan) := by
  have hmonthly : 0 < upcloudMonthly pricing plan.name := by
    obtain ⟨str, v, hlook, hparse, hv⟩ := hpr
    unfold upcloudMonthly
    rw [hlook]
    simp only [hparse, Option.getD_some]
    exact jsRound_div100_pos _ (by linarith)
  simp only [ValidPlan, upcloudPlanOf]
  refine ⟨?_, ?_, ?_, ?_, ?_, ?_, ?_, ?_, ?_, ?_, ?_, ?_, ?_, ?_, ?_, ?_, ?_, ?_, ?_, ?_,
    ?_, ?_⟩
  · exact length_append_pos_left _ _ (by decide)
  · decide
  · exact hname
  · exact hmonthly
  · decide
  · decide
  · exact hcd
  · exact hcp
  · decide
  · exact div_pos hmem (by norm_num)
  · decide
  · exact hst
  · decide
  · split <;> decide
  · exact decide_eq_true (div_nonneg htr (by norm_num))
  · decide
  · unfold upcloudFeatures
    exact list_append_pos_left _ _ (by decide)
  · exact take_length_pos _ _ (by norm_num) hz
  · norm_num
  · norm_num
  · decide
  · decide

/-- Schema validity of a Scaleway candidate, provided the raw server entry
has integral positive cores, positive RAM bytes, a maximum volume size of
at least half a gigabyte (so the rounded storage amount is positive), and
a non-empty name. -/
theorem scaleway_valid (entry : String × ScalewayServerType)
    (hcd : entry.snd.ncpus.den = 1) (hcp : 0 < entry.snd.ncpus) (hram : 0 < entry.snd.ram)
    (hvol : (2 ^ 29 : ℚ) ≤ entry.snd.volMax) (hname : 0 < entry.fst.length) :
    ValidPlan (scalewayPlanOf entry) := by
  have hn1 : 1 ≤ entry.snd.ncpus := int_rat_one_le _ hcd hcp
  have hram0 : (0 : ℚ) ≤ entry.snd.ram / (1024 * 1024 * 1024) :=
    div_nonneg (le_of_lt hram) (by norm_num)
  have hbase : (1 : ℚ) ≤ (entry.snd.ncpus * 3.5 +
      entry.snd.ram / (1024 * 1024 * 1024) * 2.5) * 100 := by
    nlinarith
  have hstore : (0 : ℚ) < (jsRound (entry.snd.volMax / (1024 * 1024 * 1024)) : ℚ) := by
    have h12 : (1 : ℚ) / 2 ≤ entry.snd.volMax / (1024 * 1024 * 1024) := by
      rw [div_le_div_iff₀ (by norm_num) (by norm_num)]
      linarith
    have hj : (1 : ℤ) ≤ jsRound (entry.snd.volMax / (1024 * 1024 * 1024)) :=
      jsRound_ge _ 1 (by linarith)
    exact_mod_cast lt_of_lt_of_le Int.zero_lt_one hj
  simp only [ValidPlan, scalewayPlanOf]
  refine ⟨?_, ?_, ?_, ?_, ?_, ?_, ?_, ?_, ?_, ?_, ?_, ?_, ?_, ?_, ?_, ?_, ?_, ?_, ?_, ?_,
    ?_, ?_⟩
  · exact length_append_pos_left _ _ (by decide)
  · decide
  · exact hname
  · exact jsRound_div100_pos _ hbase
  · decide
  · decide
  · exact hcd
  · exact hcp
  · decide
  · exact div_pos hram (by norm_num)
  · decide
  · exact hstore
  · decide
  · split <;> decide
  · decide
  · decide
  · exact list_append_pos_left _ _ (by decide)
  · decide
  · norm_num
  · norm_num
  · decide
  · decide

/-- Claim C4, amended: an adapter's candidate records validate against
`vpsSchema` with zero errors only for upstream data that respects the
schema's numeric and non-emptiness constraints; the counterexample (an
UpCloud plan with no pricing entry, which yields `monthly = 0`) shows the
unconditional claim false. Under the per-adapter hypotheses below —
positive prices (for UpCloud, a pricing entry of at least one cent; for
Hetzner, all tiers parsing to positive values), integral positive core
counts, positive memory/disk (for Linode, disk at least 1024 MB, since a
smaller disk yields storage unit "MB" which the schema's GB/TB enum
rejects; for Scaleway, a maximum volume of at least half a GB), non-negative
bandwidth, non-empty names/ids, and a non-empty locations source — every
candidate any of the six adapters produces satisfies the schema. -/
theorem claim_C4 :
    (∀ (regions : List DORegion) (size : DOSize),
      0 < size.price_monthly → size.vcpus.den = 1 → 0 < size.vcpus →
      512 ≤ size.memory → 0 < size.disk → 0 ≤ size.transfer →
      0 < ((regions.filter fun region =>
        region.available && size.regions.contains region.slug).length) →
      ValidPlan (doPlanOf regions size)) ∧
    (∀ (locs : List HetznerLocation) (st : HetznerServerType) (c : HetznerPrice),
      cheapestHetznerPrice st.prices = some c →
      (∀ pr ∈ st.prices, ∃ v, parseDecimal pr.price_monthly_gross = some v ∧ 0 < v) →
      0 < st.name.length → st.cores.den = 1 → 0 < st.cores → 0 < st.memory →
      0 < st.disk → 0 < locs.length →
      ValidPlan (hetznerPlanOf locs st c)) ∧
    (∀ (regions : List LinodeRegion) (t : LinodeType),
      0 < t.price_monthly → t.vcpus.den = 1 → 0 < t.vcpus → 0 < t.memory →
      1024 ≤ t.disk → 0 ≤ t.transfer →
      0 < ((regions.filter fun region => region.status == "ok").length) →
      ValidPlan (linodePlanOf regions t)) ∧
    (∀ (regions : List VultrRegion) (plan : VultrPlan),
      0 < plan.monthly_cost → plan.vcpu_count.den = 1 → 0 < plan.vcpu_count →
      0 < plan.ram → 0 < plan.disk → 0 ≤ plan.bandwidth → 0 < plan.id.length →
      0 < plan.locations.length →
      ValidPlan (vultrPlanOf regions plan)) ∧
    (∀ (pricing : UpCloudPricing) (zones : List String) (plan : UpCloudPlan),
      (∃ str v, upcloudPlanPricing pricing plan.name = some str ∧
        parseDecimal str = some v ∧ 1 / 100 ≤ v) →
      plan.core_number.den = 1 → 0 < plan.core_number → 0 < plan.memory_amount →
      0 < plan.storage_size → 0 ≤ plan.public_traffic_out → 0 < plan.name.length →
      0 < zones.length →
      ValidPlan (upcloudPlanOf pricing zones plan)) ∧
    (∀ (entry : String × ScalewayServerType),
      entry.snd.ncpus.den = 1 → 0 < entry.snd.ncpus → 0 < entry.snd.ram →
      (2 ^ 29 : ℚ) ≤ entry.snd.volMax → 0 < entry.fst.length →
      ValidPlan (scalewayPlanOf entry)) := by
  refine ⟨?_, ?_, ?_, ?_, ?_, ?_⟩
  · intro regions size h1 h2 h3 h4 h5 h6 h7
    exact do_valid regions size h1 h2 h3 h4 h5 h6 h7
  · intro locs st c h1 h2 h3 h4 h5 h6 h7 h8
    exact hetzner_valid locs st c h1 h2 h3 h4 h5 h6 h7 h8
  · intro regions t h1 h2 h3 h4 h5 h6 h7
    exact linode_valid regions t h1 h2 h3 h4 h5 h6 h7
  · intro regions plan h1 h2 h3 h4 h5 h6 h7 h8
    exact vultr_valid regions plan h1 h2 h3 h4 h5 h6 h7 h8
  · intro pricing zones plan h1 h2 h3 h4 h5 h6 h7 h8
    exact upcloud_valid pricing zones plan h1 h2 h3 h4 h5 h6 h7 h8
  · intro entry h1 h2 h3 h4 h5
    exact scaleway_valid entry h1 h2 h3 h4 h5

/-- A region list accepted by the DigitalOcean filter for `doSize2048`. -/
def doRegionsNYC : List DORegion := [{ slug := "nyc1", name := "New York 1", available := true }]

/-- A Linode type used to instantiate the validity theorem. -/
def linodeTypeStd : LinodeType :=
  { id := "g6-standard-1", label := "Linode 2GB", planClass := "standard", vcpus := 1,
    memory := 2048, disk := 51200, transfer := 2048, price_monthly := 12 }

/-- An UpCloud pricing response carrying the plan's entry. -/
def upcloudPricingPresent : UpCloudPricing :=
  { zoneList := [{ zone := "us-nyc1", entries := [("server_plan_1xCPU-2GB", "1")] }] }

/-- A Scaleway server entry used to instantiate the validity theorem. -/
def scalewayEntryDev : String × ScalewayServerType :=
  ("DEV1-S", { arch := "x86_64", ncpus := 2, ram := 2147483648, volMax := 21474836480 })

/-- Witness for C4: one concrete candidate per adapter satisfies the
schema under the theorem's hypotheses. -/
theorem claim_C4_witness :
    ValidPlan (doPlanOf doRegionsNYC doSize2048) ∧
    ValidPlan (hetznerPlanOf [{ city := "Falkenstein", country := "Germany" }] hetznerStCx11
      { price_monthly_gross := "4.15" }) ∧
    ValidPlan (linodePlanOf [{ status := "ok", label := "Newark, NJ" }] linodeTypeStd) ∧
    ValidPlan (vultrPlanOf [{ id := "ewr", city := "New Jersey", country := "US" }]
      vultrPlan512) ∧
    ValidPlan (upcloudPlanOf upcloudPricingPresent ["New York, USA"] upcloudPlan2GB) ∧
    ValidPlan (scalewayPlanOf scalewayEntryDev) := by
  refine ⟨?_, ?_, ?_, ?_, ?_, ?_⟩
  · exact claim_C4.1 doRegionsNYC doSize2048 (by decide) (by decide) (by decide) (by decide)
      (by decide) (by decide) (by decide)
  · refine claim_C4.2.1 _ hetznerStCx11 _ (by with_unfolding_all decide) ?_ (by decide)
      (by decide) (by decide) (by decide) (by decide) (by decide)
    intro pr hpr
    rw [List.mem_singleton.mp hpr]
    exact ⟨83 / 20, by with_unfolding_all decide, by with_unfolding_all decide⟩
  · exact claim_C4.2.2.1 _ linodeTypeStd (by decide) (by decide) (by decide) (by decide)
      (by decide) (by decide) (by decide)
  · exact claim_C4.2.2.2.1 _ vultrPlan512 (by with_unfolding_all decide) (by decide)
      (by decide) (by decide) (by decide) (by decide) (by decide) (by decide)
  · exact claim_C4.2.2.2.2.1 upcloudPricingPresent _ upcloudPlan2GB
      ⟨"1", 1, by with_unfolding_all decide, by with_unfolding_all decide,
        by with_unfolding_all decide⟩
      (by decide) (by decide) (by decide) (by decide) (by decide) (by decide) (by decide)
  · exact claim_C4.2.2.2.2.2 scalewayEntryDev (by decide) (by decide) (by decide)
      (by with_unfolding_all decide) (by decide)

/-! ## Claim C6 -/

/-- Claim C6: every adapter that requires credentials (all but Linode,
whose endpoints need no API key), when its credential environment
variables are absent (or empty, which JS treats as falsy too), returns the
empty sequence with exactly one warning log whose text mentions the
missing variable name — and the result is the same whatever the HTTP
responses would have been, which is the embedding's rendering of "no
network request is issued". -/
theorem claim_C6 :
    ((∀ (env : Env) (s : HttpResponse DOSizesResponse) (r : HttpResponse DORegionsResponse),
      isFalsy env.DIGITALOCEAN_API_KEY = true →
      fetchDigitalOceanPlans env s r =
        ([], [LogEntry.warn "DIGITALOCEAN_API_KEY not set, skipping DigitalOcean plans"])) ∧
      strContains "DIGITALOCEAN_API_KEY not set, skipping DigitalOcean plans"
        "DIGITALOCEAN_API_KEY" = true) ∧
    ((∀ (env : Env) (s : HttpResponse HetznerServerTypesResponse)
        (r : HttpResponse HetznerLocationsResponse),
      isFalsy env.HETZNER_API_KEY = true →
      fetchHetznerPlans env s r =
        ([], [LogEntry.warn "HETZNER_API_KEY not set, skipping Hetzner plans"])) ∧
      strContains "HETZNER_API_KEY not set, skipping Hetzner plans" "HETZNER_API_KEY" = true) ∧
    ((∀ (env : Env) (s : HttpResponse VultrPlansResponse) (r : HttpResponse VultrRegionsResponse),
      isFalsy env.VULTR_API_KEY = true →
      fetchVultrPlans env s r =
        ([], [LogEntry.warn "⚠️  VULTR_API_KEY not set, skipping Vultr plans"])) ∧
      strContains "⚠️  VULTR_API_KEY not set, skipping Vultr plans" "VULTR_API_KEY" = true) ∧
    ((∀ (env : Env) (p : HttpResponse UpCloudPlansResponse) (pr : HttpResponse UpCloudPricing)
        (z : HttpResponse UpCloudZonesResponse),
      isFalsy env.UPCLOUD_USERNAME = true ∨ isFalsy env.UPCLOUD_PASSWORD = true →
      fetchUpCloudPlans env p pr z =
        ([], [LogEntry.warn
          "⚠️  UPCLOUD_USERNAME or UPCLOUD_PASSWORD not set, skipping UpCloud plans"])) ∧
      strContains "⚠️  UPCLOUD_USERNAME or UPCLOUD_PASSWORD not set, skipping UpCloud plans"
        "UPCLOUD_USERNAME" = true ∧
      strContains "⚠️  UPCLOUD_USERNAME or UPCLOUD_PASSWORD not set, skipping UpCloud plans"
        "UPCLOUD_PASSWORD" = true) ∧
    ((∀ (env : Env) (s : HttpResponse ScalewayServersResponse),
      isFalsy env.SCALEWAY_API_KEY = true →
      fetchScalewayPlans env s =
        ([], [LogEntry.warn "⚠️  SCALEWAY_API_KEY not set, skipping Scaleway plans"])) ∧
      strContains "⚠️  SCALEWAY_API_KEY not set, skipping Scaleway plans"
        "SCALEWAY_API_KEY" = true) := by
  refine ⟨⟨?_, by decide⟩, ⟨?_, by decide⟩, ⟨?_, by decide⟩, ⟨?_, by decide, by decide⟩,
    ⟨?_, by decide⟩⟩
  · intro env s r h
    simp [fetchDigitalOceanPlans, h]
  · intro env s r h
    simp [fetchHetznerPlans, h]
  · intro env s r h
    simp [fetchVultrPlans, h]
  · intro env p pr z h
    rcases h with h | h <;> simp [fetchUpCloudPlans, h]
  · intro env s h
    simp [fetchScalewayPlans, h]

/-- Witness for C6: with an entirely empty environment and arbitrary
would-be responses, every credentialed adapter returns no plans and the
single warning naming its variable. -/
theorem claim_C6_witness :
    fetchDigitalOceanPlans {} (respOk ⟨[]⟩) (respOk ⟨[]⟩) =
      ([], [LogEntry.warn "DIGITALOCEAN_API_KEY not set, skipping DigitalOcean plans"]) ∧
    fetchHetznerPlans {} (respOk ⟨[]⟩) (respOk ⟨[]⟩) =
      ([], [LogEntry.warn "HETZNER_API_KEY not set, skipping Hetzner plans"]) ∧
    fetchVultrPlans {} (respOk ⟨[]⟩) (respOk ⟨[]⟩) =
      ([], [LogEntry.warn "⚠️  VULTR_API_KEY not set, skipping Vultr plans"]) ∧
    fetchUpCloudPlans {} (respOk ⟨[]⟩) (respOk ⟨[]⟩) (respOk ⟨[]⟩) =
      ([], [LogEntry.warn
        "⚠️  UPCLOUD_USERNAME or UPCLOUD_PASSWORD not set, skipping UpCloud plans"]) ∧
    fetchScalewayPlans {} (respOk ⟨[]⟩) =
      ([], [LogEntry.warn "⚠️  SCALEWAY_API_KEY not set, skipping Scaleway plans"]) :=
  ⟨claim_C6.1.1 {} _ _ (by decide),
   claim_C6.2.1.1 {} _ _ (by decide),
   claim_C6.2.2.1.1 {} _ _ (by decide),
   claim_C6.2.2.2.1.1 {} _ _ _ (Or.inl (by decide)),
   claim_C6.2.2.2.2.1 {} _ (by decide)⟩

/-! ## Claim C7 -/

/-- A minimal well-formed candidate plan, used to populate concrete loader
runs. -/
def planStub (n : String) : Plan :=
  { id := n, provider := "P", name := n
    price := { monthly := 1, currency := "USD" }
    specs :=
      { cpu := { cores := 1, type := "vCPU" }
        ram := { amount := 1, unit := "GB" }
        storage := { amount := 1, unit := "GB", type := "SSD" }
        bandwidth := { amount := some 1, unit := "TB", unlimited := false } }
    features := ["f"], locations := ["loc"]
    uptime := { percentage := 99, sla := false }
    support := "support", website := "https://example.com", tags := [], featured := false }

/-- Counterexample to C7: the loader uses `Promise.all`, so when one
adapter's promise rejects (its internal error handling bypassed) while the
others resolve with plans, the whole aggregation rejects with that error
and none of the successful adapters' plans appear. -/
theorem claim_C7_counterexample :
    vpsPlansLoader (Except.ok [planStub "do-1"]) (Except.error "boom")
      (Except.ok [planStub "li-1"]) = Except.error "boom" ∧
    loaderValue (vpsPlansLoader (Except.ok [planStub "do-1"]) (Except.error "boom")
      (Except.ok [planStub "li-1"])) = [] := by
  exact ⟨rfl, rfl⟩

/-- Claim C7, amended: the loader's `Promise.all` resolves only when every
adapter resolves, in which case it concatenates the plans in registration
order; if any adapter's promise rejects, the aggregation rejects with that
error instead of surfacing the other adapters' plans. -/
theorem claim_C7 :
    (∀ (d h l : List Plan),
      vpsPlansLoader (Except.ok d) (Except.ok h) (Except.ok l) = Except.ok (d ++ h ++ l)) ∧
    (∀ (e : String) (hR lR : Except String (List Plan)),
      vpsPlansLoader (Except.error e) hR lR = Except.error e) ∧
    (∀ (d : List Plan) (e : String) (lR : Except String (List Plan)),
      vpsPlansLoader (Except.ok d) (Except.error e) lR = Except.error e) ∧
    (∀ (d h : List Plan) (e : String),
      vpsPlansLoader (Except.ok d) (Except.ok h) (Except.error e) = Except.error e) := by
  exact ⟨fun _ _ _ => rfl, fun _ _ _ => rfl, fun _ _ _ => rfl, fun _ _ _ => rfl⟩

/-- Witness for C7: a fully successful run concatenates in registration
order. -/
theorem claim_C7_witness :
    vpsPlansLoader (Except.ok [planStub "do-1"]) (Except.ok [planStub "hz-1"])
      (Except.ok [planStub "li-1"]) =
      Except.ok [planStub "do-1", planStub "hz-1", planStub "li-1"] := by
  exact claim_C7.1 [planStub "do-1"] [planStub "hz-1"] [planStub "li-1"]

/-! ## Claim C8 -/

theorem do_out_cases (env : Env) (s : HttpResponse DOSizesResponse)
    (r : HttpResponse DORegionsResponse) :
    (fetchDigitalOceanPlans env s r).1 = [] ∨
    ∃ sd rd, s.body = Except.ok sd ∧ r.body = Except.ok rd ∧
      (fetchDigitalOceanPlans env s r).1 =
        (sd.sizes.filter fun size => size.available && decide (512 ≤ size.memory)).map
          (doPlanOf rd.regions) := by
  unfold fetchDigitalOceanPlans
  by_cases hk : isFalsy env.DIGITALOCEAN_API_KEY = true
  · simp [hk]
  · rw [if_neg (by simp [hk])]
    cases hb : fetchDigitalOceanPlansBody s r with
    | error e => simp
    | ok plans =>
      unfold fetchDigitalOceanPlansBody at hb
      cases hso : s.ok with
      | false => rw [hso] at hb; simp [ethrow_eq, ebind_err] at hb
      | true =>
        cases hro : r.ok with
        | false => rw [hso, hro] at hb; simp [ethrow_eq, ebind_err] at hb
        | true =>
          rw [hso, hro] at hb
          cases hsb : s.body with
          | error e => simp [hsb, ebind_err, ebind_ok] at hb
          | ok sd =>
            cases hrb : r.body with
            | error e => simp [hsb, hrb, ebind_err, ebind_ok, emap_err] at hb
            | ok rd =>
              simp only [hsb, hrb, ebind_ok, emap_ok, Bool.not_true, Bool.or_self,
                Bool.false_eq_true, if_false, pure] at hb
              refine Or.inr ⟨sd, rd, rfl, rfl, ?_⟩
              cases hb
              rfl

theorem linode_out_cases (s : HttpResponse LinodeTypesResponse)
    (r : HttpResponse LinodeRegionsResponse) :
    (fetchLinodePlans s r).1 = [] ∨
    ∃ td rd, s.body = Except.ok td ∧ r.body = Except.ok rd ∧
      (fetchLinodePlans s r).1 =
        (td.data.filter fun t => !(t.planClass == "gpu") && !(t.planClass == "accelerated")).map
          (linodePlanOf rd.data) := by
  unfold fetchLinodePlans
  cases hb : fetchLinodePlansBody s r with
  | error e => simp
  | ok plans =>
    unfold fetchLinodePlansBody at hb
    cases hso : s.ok with
    | false => rw [hso] at hb; simp [ethrow_eq, ebind_err] at hb
    | true =>
      cases hro : r.ok with
      | false => rw [hso, hro] at hb; simp [ethrow_eq, ebind_err] at hb
      | true =>
        rw [hso, hro] at hb
        cases hsb : s.body with
        | error e => simp [hsb, ebind_err, ebind_ok] at hb
        | ok td =>
          cases hrb : r.body with
          | error e => simp [hsb, hrb, ebind_err, ebind_ok, emap_err] at hb
          | ok rd =>
            simp only [hsb, hrb, ebind_ok, emap_ok, Bool.not_true, Bool.or_self,
              Bool.false_eq_true, if_false, pure] at hb
            refine Or.inr ⟨td, rd, rfl, rfl, ?_⟩
            cases hb
            rfl

theorem hetzner_out_cases (env : Env) (s : HttpResponse HetznerServerTypesResponse)
    (r : HttpResponse HetznerLocationsResponse) :
    (fetchHetznerPlans env s r).1 = [] ∨
    ∃ sd ld out, s.body = Except.ok sd ∧ r.body = Except.ok ld ∧
      hetznerTransformAll ld.locations (hetznerFiltered env sd.server_types) =
        Except.ok out ∧
      (fetchHetznerPlans env s r).1 = out := by
  unfold fetchHetznerPlans
  by_cases hk : isFalsy env.HETZNER_API_KEY = true
  · simp [hk]
  · rw [if_neg (by simp [hk])]
    cases hb : fetchHetznerPlansBody env s r with
    | error e => simp
    | ok plans =>
      unfold fetchHetznerPlansBody at hb
      cases hso : s.ok with
      | false => rw [hso] at hb; simp [ethrow_eq, ebind_err] at hb
      | true =>
        cases hro : r.ok with
        | false => rw [hso, hro] at hb; simp [ethrow_eq, ebind_err] at hb
        | true =>
          rw [hso, hro] at hb
          cases hsb : s.body with
          | error e => simp [hsb, ebind_err, ebind_ok] at hb
          | ok sd =>
            cases hrb : r.body with
            | error e => simp [hsb, hrb, ebind_err, ebind_ok] at hb
            | ok ld =>
              simp only [hsb, hrb, ebind_ok, Bool.not_true, Bool.or_self,
                Bool.false_eq_true, if_false] at hb
              exact Or.inr ⟨sd, ld, plans, rfl, rfl, hb, rfl⟩

theorem hetznerTransformAll_ids (locs : List HetznerLocation) (l : List HetznerServerType)
    (out : List Plan) (h : hetznerTransformAll locs l = Except.ok out) :
    out.map Plan.id = l.map fun st => "hetzner-" ++ jsToLower st.name := by
  induction l generalizing out with
  | nil =>
    unfold hetznerTransformAll at h
    cases h
    rfl
  | cons st rest ih =>
    unfold hetznerTransformAll at h
    cases hc : cheapestHetznerPrice st.prices with
    | none => rw [hc] at h; exact absurd h (by simp)
    | some c =>
      rw [hc] at h
      cases hrest : hetznerTransformAll locs rest with
      | error e => rw [hrest] at h; exact absurd h (by simp)
      | ok restPlans =>
        rw [hrest] at h
        cases h
        simp only [List.map_cons]
        rw [ih restPlans hrest]
        rfl

theorem str_append_left_cancel (p a b : String) (h : p ++ a = p ++ b) : a = b := by
  cases p with
  | mk pd =>
    cases a with
    | mk ad =>
      cases b with
      | mk bd =>
        have hd : pd ++ ad = pd ++ bd := congrArg String.data h
        have : ad = bd := List.append_cancel_left hd
        rw [this]

theorem prefixed_head (pd : List Char) (c : Char) (pds : List Char) (hp : pd = c :: pds)
    (s : String) : (String.mk pd ++ s).data.head? = some c := by
  cases s with
  | mk d =>
    subst hp
    rfl

theorem nodup_map_prefixed {α : Type} (p : String) (f : α → String) (l : List α)
    (h : (l.map f).Nodup) : (l.map fun a => p ++ f a).Nodup := by
  have heq : (l.map fun a => p ++ f a) = (l.map f).map fun s => p ++ s := by
    simp [List.map_map]
  rw [heq]
  exact h.map fun a b hab => str_append_left_cancel p a b hab

theorem head_do_id (s : String) : ("digitalocean-" ++ s).data.head? = some 'd' := by
  cases s with
  | mk d => rfl

theorem head_hetzner_id (s : String) : ("hetzner-" ++ s).data.head? = some 'h' := by
  cases s with
  | mk d => rfl

theorem head_linode_id (s : String) : ("linode-" ++ s).data.head? = some 'l' := by
  cases s with
  | mk d => rfl

/-- The ids the DigitalOcean adapter emits are pairwise distinct (given
slug uniqueness in the sizes response) and all start with 'd'. -/
theorem do_ids (env : Env) (s : HttpResponse DOSizesResponse) (r : HttpResponse DORegionsResponse)
    (hnd : ∀ sd, s.body = Except.ok sd → (sd.sizes.map DOSize.slug).Nodup) :
    ((fetchDigitalOceanPlans env s r).1.map Plan.id).Nodup ∧
    ∀ x ∈ (fetchDigitalOceanPlans env s r).1.map Plan.id, x.data.head? = some 'd' := by
  rcases do_out_cases env s r with h | ⟨sd, rd, hsb, hrb, h⟩
  · rw [h]
    exact ⟨List.nodup_nil, by simp⟩
  · rw [h]
    have hids : (((sd.sizes.filter fun size =>
        size.available && decide (512 ≤ size.memory)).map (doPlanOf rd.regions)).map Plan.id) =
        (sd.sizes.filter fun size => size.available && decide (512 ≤ size.memory)).map
          fun size => "digitalocean-" ++ size.slug := by
      rw [List.map_map]
      exact List.map_congr_left fun a _ => rfl
    rw [hids]
    constructor
    · apply nodup_map_prefixed "digitalocean-" DOSize.slug
      exact List.Nodup.sublist (List.Sublist.map _ (List.filter_sublist _)) (hnd sd hsb)
    · intro x hx
      obtain ⟨a, _, hxe⟩ := List.mem_map.mp hx
      rw [← hxe]
      exact head_do_id a.slug

/-- The ids the Linode adapter emits are pairwise distinct (given type-id
uniqueness in the types response) and all start with 'l'. -/
theorem linode_ids (s : HttpResponse LinodeTypesResponse) (r : HttpResponse LinodeRegionsResponse)
    (hnd : ∀ td, s.body = Except.ok td → (td.data.map LinodeType.id).Nodup) :
    ((fetchLinodePlans s r).1.map Plan.id).Nodup ∧
    ∀ x ∈ (fetchLinodePlans s r).1.map Plan.id, x.data.head? = some 'l' := by
  rcases linode_out_cases s r with h | ⟨td, rd, hsb, hrb, h⟩
  · rw [h]
    exact ⟨List.nodup_nil, by simp⟩
  · rw [h]
    have hids : (((td.data.filter fun t =>
        !(t.planClass == "gpu") && !(t.planClass == "accelerated")).map
          (linodePlanOf rd.data)).map Plan.id) =
        (td.data.filter fun t =>
          !(t.planClass == "gpu") && !(t.planClass == "accelerated")).map
          fun t => "linode-" ++ t.id := by
      rw [List.map_map]
      exact List.map_congr_left fun a _ => rfl
    rw [hids]
    constructor
    · apply nodup_map_prefixed "linode-" LinodeType.id
      exact List.Nodup.sublist (List.Sublist.map _ (List.filter_sublist _)) (hnd td hsb)
    · intro x hx
      obtain ⟨a, _, hxe⟩ := List.mem_map.mp hx
      rw [← hxe]
      exact head_linode_id a.id

/-- The ids the Hetzner adapter emits are pairwise distinct (given that the
lower-cased server-type names in the response are unique) and all start
with 'h'. -/
theorem hetzner_ids (env : Env) (s : HttpResponse HetznerServerTypesResponse)
    (r : HttpResponse HetznerLocationsResponse)
    (hnd : ∀ sd, s.body = Except.ok sd →
      (sd.server_types.map fun st => jsToLower st.name).Nodup) :
    ((fetchHetznerPlans env s r).1.map Plan.id).Nodup ∧
    ∀ x ∈ (fetchHetznerPlans env s r).1.map Plan.id, x.data.head? = some 'h' := by
  rcases hetzner_out_cases env s r with h | ⟨sd, ld, out, hsb, hrb, htr, h⟩
  · rw [h]
    exact ⟨List.nodup_nil, by simp⟩
  · rw [h, hetznerTransformAll_ids ld.locations _ out htr]
    constructor
    · refine nodup_map_prefixed "hetzner-" (fun st : HetznerServerType => jsToLower st.name) _ ?_
      refine List.Nodup.sublist ?_ (hnd sd hsb)
      apply List.Sublist.map
      exact (List.filter_sublist _).trans (List.filter_sublist _)
    · intro x hx
      obtain ⟨a, _, hxe⟩ := List.mem_map.mp hx
      rw [← hxe]
      exact head_hetzner_id (jsToLower a.name)

theorem disjoint_of_heads (c1 c2 : Char) (hne : c1 ≠ c2) (l1 l2 : List String)
    (h1 : ∀ x ∈ l1, x.data.head? = some c1) (h2 : ∀ x ∈ l2, x.data.head? = some c2) :
    l1.Disjoint l2 := by
  intro a ha1 ha2
  have e1 := h1 a ha1
  have e2 := h2 a ha2
  rw [e1] at e2
  exact hne (Option.some.inj e2)

/-- A Hetzner response with two server types whose names differ only in
case. -/
def hetznerDupSts : HetznerServerTypesResponse :=
  { server_types :=
      [{ name := "CX11", cores := 1, memory := 2, disk := 20, deprecated := false,
         architecture := "x86", cpu_type := "shared", storage_type := "local",
         prices := [{ price_monthly_gross := "5" }] },
       { name := "cx11", cores := 1, memory := 2, disk := 20, deprecated := false,
         architecture := "x86", cpu_type := "shared", storage_type := "local",
         prices := [{ price_monthly_gross := "5" }] }] }

/-- Counterexample to C8: the Hetzner adapter lower-cases names when
forming ids, so a provider whose plan identifiers are unique ("CX11" and
"cx11" are distinct) still yields duplicate ids in the aggregated output. -/
theorem claim_C8_counterexample :
    (["CX11", "cx11"] : List String).Nodup ∧
    hetznerDupSts.server_types.map HetznerServerType.name = ["CX11", "cx11"] ∧
    ((loaderValue (vpsPlansLoader
        (Except.ok (fetchDigitalOceanPlans {} (respOk ⟨[]⟩) (respOk ⟨[]⟩)).1)
        (Except.ok (fetchHetznerPlans envAll (respOk hetznerDupSts)
          (respOk ⟨[{ city := "Falkenstein", country := "Germany" }]⟩)).1)
        (Except.ok (fetchLinodePlans (respOk ⟨[]⟩) (respOk ⟨[]⟩)).1))).map Plan.id) =
      ["hetzner-cx11", "hetzner-cx11"] ∧
    ¬(["hetzner-cx11", "hetzner-cx11"] : List String).Nodup := by
  refine ⟨by decide, by decide, by decide, by decide⟩

/-- Claim C8, amended: if each provider's plan identifiers are unique
after the adapter's own normalization — slugs as-is for DigitalOcean, type
ids as-is for Linode, and names after lower-casing for Hetzner, since the
adapter builds ids from lower-cased names — then the id fields in the
aggregated output of `src/content.config.ts`'s three registered adapters
are pairwise distinct (the distinct provider prefixes keep the segments
disjoint). -/
theorem claim_C8 :
    ∀ (envD envH : Env) (ds : HttpResponse DOSizesResponse) (dr : HttpResponse DORegionsResponse)
      (hs : HttpResponse HetznerServerTypesResponse) (hl : HttpResponse HetznerLocationsResponse)
      (ls : HttpResponse LinodeTypesResponse) (lr : HttpResponse LinodeRegionsResponse),
    (∀ sd, ds.body = Except.ok sd → (sd.sizes.map DOSize.slug).Nodup) →
    (∀ sd, hs.body = Except.ok sd → (sd.server_types.map fun st => jsToLower st.name).Nodup) →
    (∀ td, ls.body = Except.ok td → (td.data.map LinodeType.id).Nodup) →
    ∀ plans,
      vpsPlansLoader (Except.ok (fetchDigitalOceanPlans envD ds dr).1)
        (Except.ok (fetchHetznerPlans envH hs hl).1)
        (Except.ok (fetchLinodePlans ls lr).1) = Except.ok plans →
      (plans.map Plan.id).Nodup := by
  intro envD envH ds dr hs hl ls lr hd hh hli plans hplans
  obtain ⟨hdn, hdh⟩ := do_ids envD ds dr hd
  obtain ⟨hhn, hhh⟩ := hetzner_ids envH hs hl hh
  obtain ⟨hln, hlh⟩ := linode_ids ls lr hli
  have h0 : vpsPlansLoader (Except.ok (fetchDigitalOceanPlans envD ds dr).1)
      (Except.ok (fetchHetznerPlans envH hs hl).1)
      (Except.ok (fetchLinodePlans ls lr).1) =
      Except.ok ((fetchDigitalOceanPlans envD ds dr).1 ++ (fetchHetznerPlans envH hs hl).1 ++
        (fetchLinodePlans ls lr).1) := rfl
  rw [h0] at hplans
  have hpe : (fetchDigitalOceanPlans envD ds dr).1 ++ (fetchHetznerPlans envH hs hl).1 ++
      (fetchLinodePlans ls lr).1 = plans := by
    injection hplans
  rw [← hpe, List.map_append, List.map_append]
  refine List.Nodup.append (List.Nodup.append hdn hhn ?_) hln ?_
  · exact disjoint_of_heads 'd' 'h' (by decide) _ _ hdh hhh
  · intro a ha hal
    rcases List.mem_append.mp ha with had | hah
    · exact disjoint_of_heads 'd' 'l' (by decide) _ _ hdh hlh had hal
    · exact disjoint_of_heads 'h' 'l' (by decide) _ _ hhh hlh hah hal

/-- Witness for C8: a concrete aggregation run with one plan per provider
has pairwise-distinct ids. -/
theorem claim_C8_witness :
    ((loaderValue (vpsPlansLoader
        (Except.ok (fetchDigitalOceanPlans envAll (respOk ⟨[doSize2048]⟩)
          (respOk ⟨doRegionsNYC⟩)).1)
        (Except.ok (fetchHetznerPlans envAll (respOk ⟨[hetznerStCx11]⟩)
          (respOk ⟨[{ city := "Falkenstein", country := "Germany" }]⟩)).1)
        (Except.ok (fetchLinodePlans (respOk ⟨[linodeTypeStd]⟩) (respOk ⟨[]⟩)).1))).map
      Plan.id).Nodup :=
  claim_C8 envAll envAll _ _ _ _ _ _
    (by intro sd h; cases h; decide)
    (by intro sd h; cases h; decide)
    (by intro td h; cases h; decide)
    _ rfl

/-! ## Claim C9 -/

/-- The raw DigitalOcean size of the spec's scenario: memory 1024, disk
51200, transfer 2000. -/
def doSizeScenario : DOSize :=
  { slug := "s-1vcpu-1gb", available := true, memory := 1024, vcpus := 1, disk := 51200,
    transfer := 2000, price_monthly := 6, regions := ["nyc1"] }

/-- Counterexample to C9: the DigitalOcean adapter, given a raw plan with
`memory: 1024`, emits `ram = {amount: 1, unit: "GB"}` (1024 / 1024 = 1),
not amount 2 as the scenario claims. -/
theorem claim_C9_counterexample :
    ((fetchDigitalOceanPlans envAll (respOk ⟨[doSizeScenario]⟩) (respOk ⟨doRegionsNYC⟩)).1.map
      fun p => (p.specs.ram.amount, p.specs.ram.unit)) = [((1 : ℚ), "GB")] ∧
    (1 : ℚ) ≠ 2 := by
  exact ⟨by with_unfolding_all decide, by norm_num⟩

/-- Claim C9, amended: the DigitalOcean adapter, given an available raw
plan with `memory: 1024`, `disk: 51200`, `transfer: 2000`, produces
`ram = {amount: 1, unit: "GB"}`, per its documented divide-by-1024
conversion rule. -/
theorem claim_C9 :
    ((fetchDigitalOceanPlans envAll (respOk ⟨[doSizeScenario]⟩) (respOk ⟨doRegionsNYC⟩)).1.map
      fun p => p.specs.ram) = [{ amount := 1, unit := "GB" }] := by
  with_unfolding_all decide

/-! ## Claim C10 -/

theorem jsRound_zero : jsRound 0 = 0 := by
  unfold jsRound
  rw [show (0 : ℚ) + 1 / 2 = 1 / 2 by norm_num]
  rw [Int.floor_eq_zero_iff]
  constructor <;> norm_num

theorem upcloud_body_ok (pres : HttpResponse UpCloudPlansResponse)
    (prres : HttpResponse UpCloudPricing) (zres : HttpResponse UpCloudZonesResponse)
    (pd : UpCloudPlansResponse) (prd : UpCloudPricing) (zd : UpCloudZonesResponse)
    (h1 : pres.ok = true) (h2 : prres.ok = true) (h3 : zres.ok = true)
    (hb1 : pres.body = Except.ok pd) (hb2 : prres.body = Except.ok prd)
    (hb3 : zres.body = Except.ok zd) :
    fetchUpCloudPlansBody pres prres zres =
      Except.ok (pd.plans.map (upcloudPlanOf prd (zd.zones.map UpCloudZone.description))) := by
  unfold fetchUpCloudPlansBody
  rw [h1, h2, h3]
  simp [hb1, hb2, hb3, ebind_ok, emap_ok]

/-- Claim C10: on an UpCloud run with valid credentials and three
successful responses, the emitted collection is exactly the normal
transform of every raw plan; a plan whose `server_plan_<name>` entry is
absent from the first pricing zone is still emitted, with
`price.monthly = 0` and every other field produced by the same transform
as any other plan. -/
theorem claim_C10 :
    ∀ (env : Env) (pres : HttpResponse UpCloudPlansResponse)
      (prres : HttpResponse UpCloudPricing) (zres : HttpResponse UpCloudZonesResponse)
      (pd : UpCloudPlansResponse) (prd : UpCloudPricing) (zd : UpCloudZonesResponse)
      (plan : UpCloudPlan),
    isFalsy env.UPCLOUD_USERNAME = false → isFalsy env.UPCLOUD_PASSWORD = false →
    pres.ok = true → prres.ok = true → zres.ok = true →
    pres.body = Except.ok pd → prres.body = Except.ok prd → zres.body = Except.ok zd →
    (fetchUpCloudPlans env pres prres zres).1 =
      pd.plans.map (upcloudPlanOf prd (zd.zones.map UpCloudZone.description)) ∧
    (plan ∈ pd.plans → upcloudPlanPricing prd plan.name = none →
      upcloudPlanOf prd (zd.zones.map UpCloudZone.description) plan ∈
        (fetchUpCloudPlans env pres prres zres).1 ∧
      (upcloudPlanOf prd (zd.zones.map UpCloudZone.description) plan).price.monthly = 0) := by
  intro env pres prres zres pd prd zd plan hu hp h1 h2 h3 hb1 hb2 hb3
  have hout : (fetchUpCloudPlans env pres prres zres).1 =
      pd.plans.map (upcloudPlanOf prd (zd.zones.map UpCloudZone.description)) := by
    unfold fetchUpCloudPlans
    rw [if_neg (by simp [hu, hp]),
      upcloud_body_ok pres prres zres pd prd zd h1 h2 h3 hb1 hb2 hb3]
  refine ⟨hout, fun hmem hnone => ⟨?_, ?_⟩⟩
  · rw [hout]
    exact List.mem_map_of_mem _ hmem
  · show upcloudMonthly prd plan.name = 0
    unfold upcloudMonthly
    rw [hnone]
    simp only
    rw [show (0 : ℚ) * 730 * 100 = 0 by norm_num, jsRound_zero]
    norm_num

/-- Witness for C10: a concrete UpCloud run whose pricing zone lacks the
plan's entry still emits the plan, with monthly price 0 and all other
fields from the standard transform. -/
theorem claim_C10_witness :
    (fetchUpCloudPlans envAll (respOk ⟨[upcloudPlan2GB]⟩) (respOk upcloudPricingMissing)
        (respOk upcloudZonesNY)).1 =
      ([upcloudPlan2GB] : List UpCloudPlan).map
        (upcloudPlanOf upcloudPricingMissing
          (upcloudZonesNY.zones.map UpCloudZone.description)) ∧
    (upcloudPlanOf upcloudPricingMissing (upcloudZonesNY.zones.map UpCloudZone.description)
      upcloudPlan2GB).price.monthly = 0 := by
  have h := claim_C10 envAll (respOk ⟨[upcloudPlan2GB]⟩) (respOk upcloudPricingMissing)
    (respOk upcloudZonesNY) ⟨[upcloudPlan2GB]⟩ upcloudPricingMissing upcloudZonesNY
    upcloudPlan2GB (by decide) (by decide) rfl rfl rfl rfl rfl rfl
  exact ⟨h.1, (h.2 (List.mem_singleton.mpr rfl) (by decide)).2⟩

end VpsCompare
